import Mathlib

/-!
# FIBSCookieMonster: the classification engine

A shallow embedding of `FIBSCookieMonster.c`: the batches of compiled patterns,
the first-match batch search, the five state functions, and the lifecycle
operations `FIBSCookie`, `ResetFIBSCookieMonster`, `ReleaseFIBSCookieMonster`.

The C library calls `regcomp` / `regexec` (POSIX extended regular expressions,
flags `REG_EXTENDED | REG_NOSUB`, C locale) are modelled by `regcompERE` and
`regexec` below. A message (`const char *`) is a `String`, one character per byte.
The file-level variables of the C file are the record `Monster`; every operation
takes the variables and returns the new ones. `malloc` is taken to succeed.
-/

namespace FIBS

/-! ## POSIX extended regular expressions (the fragment the tables use) -/

/-- Abstract syntax of a compiled pattern (`regex_t`). -/
inductive Regex where
  | empty
  | chr (c : Char)
  | any
  | set (neg : Bool) (items : List (Char × Char))
  | bol
  | eol
  | seq (r s : Regex)
  | alt (r s : Regex)
  | star (r : Regex)
  | plus (r : Regex)
  | opt (r : Regex)
  deriving DecidableEq, Repr

/-- A position in the subject string: whether it is the start of the string, and the
characters that remain. -/
abbrev Pos := Bool × List Char

/-- Membership of a character in a bracket expression given as a list of ranges. -/
def inRanges (items : List (Char × Char)) (c : Char) : Bool :=
  items.any (fun p => decide (p.1.toNat ≤ c.toNat) && decide (c.toNat ≤ p.2.toNat))

/-- One character step of an atom that consumes exactly one character. -/
def stepChar (ok : Char → Bool) : Pos → List Pos
  | (_, c :: cs) => if ok c then [(false, cs)] else []
  | (_, []) => []

/-- Positions reachable by zero or more iterations of `f`, each iteration consuming at
least one character (`n` bounds the number of iterations). -/
def starEnds (f : Pos → List Pos) : Nat → Pos → List Pos
  | 0, p => [p]
  | n + 1, p =>
    p :: ((f p).filter (fun q => decide (q.2.length < p.2.length))).flatMap (starEnds f n)

/-- All positions at which a match of `r` that starts at the given position can end. -/
def ends : Regex → Pos → List Pos
  | .empty, p => [p]
  | .chr c, p => stepChar (fun d => decide (d = c)) p
  | .any, p => stepChar (fun _ => true) p
  | .set neg items, p => stepChar (fun d => neg != inRanges items d) p
  | .bol, p => if p.1 then [p] else []
  | .eol, p => if p.2.isEmpty then [p] else []
  | .seq r s, p => (ends r p).flatMap (ends s)
  | .alt r s, p => ends r p ++ ends s p
  | .star r, p => starEnds (ends r) p.2.length p
  | .plus r, p => (ends r p).flatMap (fun q => starEnds (ends r) q.2.length q)
  | .opt r, p => p :: ends r p

/-- Does `r` match at the given position? -/
def matchesAt (r : Regex) (p : Pos) : Bool := !(ends r p).isEmpty

/-- Unanchored search: is there a match starting at this position or a later one? -/
def searchFrom (r : Regex) : Bool → List Char → Bool
  | b, [] => matchesAt r (b, [])
  | b, c :: cs => matchesAt r (b, c :: cs) || searchFrom r false cs

/-- Model of `regexec(&regex, msg, 0, NULL, 0) == 0`: the pattern matches somewhere in
the message. -/
def regexec (r : Regex) (msg : String) : Bool := searchFrom r true msg.data

/-- Right-nested concatenation of a list of pieces. -/
def mkSeq : List Regex → Regex
  | [] => .empty
  | [r] => r
  | r :: rs => .seq r (mkSeq rs)

/-- Right-nested alternation of a non-empty list of branches. -/
def mkAlt : List Regex → Regex
  | [] => .empty
  | [r] => r
  | r :: rs => .alt r (mkAlt rs)

/-- Parser state for one parenthesis level: finished branches and the pieces of the
current branch, both most recent first. -/
structure Frame where
  alts : List Regex
  cur : List Regex
  deriving Repr

/-- The regular expression a frame stands for. -/
def Frame.close (f : Frame) : Regex := mkAlt ((mkSeq f.cur.reverse :: f.alts).reverse)

/-- Append a piece to the current branch. -/
def Frame.push (f : Frame) (r : Regex) : Frame := { f with cur := r :: f.cur }

/-- Apply a repetition operator to the last piece of the current branch. -/
def Frame.rep (f : Frame) (op : Regex → Regex) : Option Frame :=
  match f.cur with
  | [] => none
  | r :: rs => some { f with cur := op r :: rs }

/-- The items of a bracket expression, up to and including the closing `]`; a backslash is
an ordinary character here, and a `-` that is first or last is literal. -/
def bracketItems : Bool → List Char → List (Char × Char) → Option (List (Char × Char) × List Char)
  | _, [], _ => none
  | first, c :: cs, acc =>
    if c = ']' ∧ first = false then some (acc.reverse, cs)
    else if c = '[' ∧ (cs.head? = some ':' ∨ cs.head? = some '.' ∨ cs.head? = some '=') then none
    else
      match cs with
      | x :: d :: rest =>
        if x = '-' ∧ d ≠ ']' then
          if c.toNat ≤ d.toNat then bracketItems false rest ((c, d) :: acc) else none
        else bracketItems false (x :: d :: rest) ((c, c) :: acc)
      | rest => bracketItems false rest ((c, c) :: acc)

/-- A bracket expression, read after its opening `[`. -/
def parseBracket (cs : List Char) : Option (Regex × List Char) :=
  let neg := decide (cs.head? = some '^')
  match bracketItems true (if neg then cs.tail else cs) [] with
  | none => none
  | some (items, rest) => some (.set neg items, rest)

/-- The parser loop; `n` bounds the number of steps. Operators that the tables never use
(intervals, back-references, character classes) are rejected. -/
def regcompGo : Nat → List Char → Frame → List Frame → Option Regex
  | 0, _, _, _ => none
  | _ + 1, [], f, [] => some f.close
  | _ + 1, [], _, _ :: _ => none
  | n + 1, c :: cs, f, st =>
    if c = '(' then regcompGo n cs ⟨[], []⟩ (f :: st)
    else if c = ')' then
      match st with
      | [] => none
      | p :: st1 => regcompGo n cs (p.push f.close) st1
    else if c = '|' then regcompGo n cs ⟨mkSeq f.cur.reverse :: f.alts, []⟩ st
    else if c = '*' then (f.rep .star).bind (fun g => regcompGo n cs g st)
    else if c = '+' then (f.rep .plus).bind (fun g => regcompGo n cs g st)
    else if c = '?' then (f.rep .opt).bind (fun g => regcompGo n cs g st)
    else if c = '{' then none
    else if c = '.' then regcompGo n cs (f.push .any) st
    else if c = '^' then regcompGo n cs (f.push .bol) st
    else if c = '$' then regcompGo n cs (f.push .eol) st
    else if c = '[' then
      match parseBracket cs with
      | none => none
      | some (r, rest) => regcompGo n rest (f.push r) st
    else if c = '\\' then
      match cs with
      | [] => none
      | d :: rest =>
        if d.isAlphanum then none else regcompGo n rest (f.push (.chr d)) st
    else regcompGo n cs (f.push (.chr c)) st

/-- Model of `regcomp(&regex, re, REG_EXTENDED | REG_NOSUB)`: `some r` when it returns 0. -/
def regcompERE (re : String) : Option Regex :=
  regcompGo (re.length + 1) re.data ⟨[], []⟩ []

/-! ## Message identifiers

`clip.h` fixes the CLIP identifiers. The header `FIBSCookieMonster.h`, which declares the
`FIBS_` identifiers, is not part of the sources: its numbering is a parameter (`Env.hdr`).
-/

/-- The message identifiers that `FIBSCookieMonster.c` names: the CLIP identifiers of
`clip.h` and the `FIBS_` identifiers of `FIBSCookieMonster.h`. -/
inductive Msg where
  | CLIP_WELCOME
  | CLIP_OWN_INFO
  | CLIP_MOTD_BEGIN
  | CLIP_MOTD_END
  | CLIP_WHO_INFO
  | CLIP_WHO_END
  | CLIP_LOGIN
  | CLIP_LOGOUT
  | CLIP_MESSAGE
  | CLIP_MESSAGE_DELIVERED
  | CLIP_MESSAGE_SAVED
  | CLIP_SAYS
  | CLIP_SHOUTS
  | CLIP_WHISPERS
  | CLIP_KIBITZES
  | CLIP_YOU_SAY
  | CLIP_YOU_SHOUT
  | CLIP_YOU_WHISPER
  | CLIP_YOU_KIBITZ
  | CLIP_ALERT
  | FIBS_PostGoodbye
  | FIBS_Empty
  | FIBS_Unknown
  | FIBS_Goodbye
  | FIBS_Timeout
  | FIBS_MOTD
  | FIBS_PreLogin
  | FIBS_Board
  | FIBS_BAD_Board
  | FIBS_YouRoll
  | FIBS_PlayerRolls
  | FIBS_RollOrDouble
  | FIBS_AcceptRejectDouble
  | FIBS_Doubles
  | FIBS_PlayerAcceptsDouble
  | FIBS_PleaseMove
  | FIBS_PlayerMoves
  | FIBS_BearingOff
  | FIBS_YouReject
  | FIBS_YouStopWatching
  | FIBS_OpponentLogsOut
  | FIBS_OnlyPossibleMove
  | FIBS_FirstRoll
  | FIBS_MakesFirstMove
  | FIBS_YouDouble
  | FIBS_PlayerWantsToResign
  | FIBS_WatchResign
  | FIBS_YouResign
  | FIBS_ResumeMatchAck5
  | FIBS_JoinNextGame
  | FIBS_NewMatchRequest
  | FIBS_WARNINGSavedMatch
  | FIBS_ResignRefused
  | FIBS_MatchLength
  | FIBS_TypeJoin
  | FIBS_YouAreWatching
  | FIBS_PlayerStartsWatching
  | FIBS_PlayerStopsWatching
  | FIBS_PlayerIsWatching
  | FIBS_ResignWins
  | FIBS_ResignYouWin
  | FIBS_YouAcceptAndWin
  | FIBS_AcceptWins
  | FIBS_PlayersStartingMatch
  | FIBS_StartingNewGame
  | FIBS_YouGiveUp
  | FIBS_YouWinMatch
  | FIBS_PlayerWinsMatch
  | FIBS_ResumingUnlimitedMatch
  | FIBS_ResumingLimitedMatch
  | FIBS_MatchResult
  | FIBS_BAD_AcceptDouble
  | FIBS_YouAcceptDouble
  | FIBS_ResumeMatchRequest
  | FIBS_ResumeMatchAck0
  | FIBS_YouWinGame
  | FIBS_UnlimitedInvite
  | FIBS_PlayerWinsGame
  | FIBS_WatchGameWins
  | FIBS_PlayersStartingUnlimitedMatch
  | FIBS_ReportLimitedMatch
  | FIBS_ReportUnlimitedMatch
  | FIBS_ShowMovesStart
  | FIBS_ShowMovesRoll
  | FIBS_ShowMovesWins
  | FIBS_ShowMovesDoubles
  | FIBS_ShowMovesAccepts
  | FIBS_ShowMovesRejects
  | FIBS_ShowMovesOther
  | FIBS_ScoreUpdate
  | FIBS_MatchStart
  | FIBS_Settings
  | FIBS_Turn
  | FIBS_Boardstyle
  | FIBS_Linelength
  | FIBS_Pagelength
  | FIBS_Redoubles
  | FIBS_Sortwho
  | FIBS_Timezone
  | FIBS_CantMove
  | FIBS_ListOfGames
  | FIBS_PlayerInfoStart
  | FIBS_EmailAddress
  | FIBS_NoEmail
  | FIBS_WavesAgain
  | FIBS_Waves
  | FIBS_NoSavedGames
  | FIBS_TypeBack
  | FIBS_SavedMatch
  | FIBS_SavedMatchPlaying
  | FIBS_PlayerIsWaitingForYou
  | FIBS_IsAway
  | FIBS_AllowpipTrue
  | FIBS_AllowpipFalse
  | FIBS_AutoboardTrue
  | FIBS_AutoboardFalse
  | FIBS_AutodoubleTrue
  | FIBS_AutodoubleFalse
  | FIBS_AutomoveTrue
  | FIBS_AutomoveFalse
  | FIBS_BellTrue
  | FIBS_BellFalse
  | FIBS_CrawfordTrue
  | FIBS_CrawfordFalse
  | FIBS_DoubleTrue
  | FIBS_DoubleFalse
  | FIBS_MoreboardsTrue
  | FIBS_MoreboardsFalse
  | FIBS_MovesTrue
  | FIBS_MovesFalse
  | FIBS_GreedyTrue
  | FIBS_GreedyFalse
  | FIBS_NotifyTrue
  | FIBS_NotifyFalse
  | FIBS_RatingsTrue
  | FIBS_RatingsFalse
  | FIBS_ReadyTrue
  | FIBS_ReadyFalse
  | FIBS_ReportTrue
  | FIBS_ReportFalse
  | FIBS_SilentTrue
  | FIBS_SilentFalse
  | FIBS_TelnetTrue
  | FIBS_TelnetFalse
  | FIBS_WrapTrue
  | FIBS_WrapFalse
  | FIBS_Junk
  | FIBS_Done
  | FIBS_YourTurnToMove
  | FIBS_SavedMatchesHeader
  | FIBS_MessagesForYou
  | FIBS_RedoublesSetTo
  | FIBS_DoublingCubeNow
  | FIBS_FailedLogin
  | FIBS_Average
  | FIBS_DiceTest
  | FIBS_LastLogout
  | FIBS_RatingCalcStart
  | FIBS_RatingCalcInfo
  | FIBS_WatchingHeader
  | FIBS_SettingsHeader
  | FIBS_AwayListHeader
  | FIBS_RatingExperience
  | FIBS_NotLoggedIn
  | FIBS_IsPlayingWith
  | FIBS_SavedScoreHeader
  | FIBS_StillLoggedIn
  | FIBS_NoOneIsAway
  | FIBS_PlayerListHeader
  | FIBS_RatingsHeader
  | FIBS_ClearScreen
  | FIBS_LastLogin
  | FIBS_NoInfo
  | FIBS_Stat
  | FIBS_Username
  | FIBS_YouGag
  | FIBS_YouUngag
  | FIBS_YouBlind
  | FIBS_YouUnblind
  | FIBS_UseToggleReady
  | FIBS_NewMatchAck9
  | FIBS_NewMatchAck10
  | FIBS_NewMatchAck2
  | FIBS_YouTerminated
  | FIBS_OpponentLeftGame
  | FIBS_PlayerLeftGame
  | FIBS_YouInvited
  | FIBS_YourLastLogin
  | FIBS_NoOne
  | FIBS_PlayerRefusingGames
  | FIBS_NotWatching
  | FIBS_NotWatchingPlaying
  | FIBS_NotPlaying
  | FIBS_NoUser
  | FIBS_AlreadyPlaying
  | FIBS_DidntInvite
  | FIBS_BadMove
  | FIBS_CantMoveFirstMove
  | FIBS_CantShout
  | FIBS_MustMove
  | FIBS_MustComeIn
  | FIBS_UsersHeardYou
  | FIBS_SavedMatchReady
  | FIBS_NotYourTurnToRoll
  | FIBS_NotYourTurnToMove
  | FIBS_UnknownCommand
  | FIBS_CantWatch
  | FIBS_CantInviteSelf
  | FIBS_DontKnowUser
  | FIBS_MessageUsage
  | FIBS_PlayerNotPlaying
  | FIBS_CantTalk
  | FIBS_WontListen
  | FIBS_Why
  | FIBS_Ratings
  | FIBS_NoSavedMatch
  | FIBS_CantGagYourself
  | FIBS_CantBlindYourself
  | FIBS_LoginPrompt
  deriving DecidableEq, Repr


open Msg

/-- The integer value of a message identifier: the `clip.h` enumeration for the CLIP
identifiers, and the numbering `hdr` of the absent header for the `FIBS_` identifiers. -/
def Msg.value (hdr : Msg → Int) : Msg → Int
  | .CLIP_WELCOME => 1
  | .CLIP_OWN_INFO => 2
  | .CLIP_MOTD_BEGIN => 3
  | .CLIP_MOTD_END => 4
  | .CLIP_WHO_INFO => 5
  | .CLIP_WHO_END => 6
  | .CLIP_LOGIN => 7
  | .CLIP_LOGOUT => 8
  | .CLIP_MESSAGE => 9
  | .CLIP_MESSAGE_DELIVERED => 10
  | .CLIP_MESSAGE_SAVED => 11
  | .CLIP_SAYS => 12
  | .CLIP_SHOUTS => 13
  | .CLIP_WHISPERS => 14
  | .CLIP_KIBITZES => 15
  | .CLIP_YOU_SAY => 16
  | .CLIP_YOU_SHOUT => 17
  | .CLIP_YOU_WHISPER => 18
  | .CLIP_YOU_KIBITZ => 19
  | .CLIP_ALERT => 20
  | m => hdr m

/-- What the engine takes from outside the file: the numbering of the `FIBS_` identifiers
(`FIBSCookieMonster.h`) and the pattern compiler (`regcomp`, `none` when it fails). -/
structure Env where
  hdr : Msg → Int
  regcomp : String → Option Regex

/-- The value of a message identifier in an environment. -/
def Env.val (E : Env) (m : Msg) : Int := m.value E.hdr

/-- The environment with the C library pattern compiler and header numbering `hdr`. -/
def libc (hdr : Msg → Int) : Env := ⟨hdr, regcompERE⟩

/-! ## Data structures and the pattern tables -/

/-- One compiled pattern with its cookie (`struct CookieDough`; the `next` pointer is the
tail of the list). -/
structure CookieDough where
  regex : Regex
  cookie : Int
  deriving DecidableEq, Repr

/-- The state functions (`state_function` values). -/
inductive StateFn where
  | uninitialized_state_cookies
  | login_state_cookies
  | motd_state_cookies
  | run_state_cookies
  | logout_state_cookies
  deriving DecidableEq, Repr

/-- The file-level variables of `FIBSCookieMonster.c`: the five batches and `state`. -/
structure Monster where
  LoginBatch : List CookieDough
  MOTDBatch : List CookieDough
  AlphaBatch : List CookieDough
  NumericBatch : List CookieDough
  StarsBatch : List CookieDough
  state : StateFn
  deriving DecidableEq, Repr

/-- The variables at program start: every batch `NULL`, `state` uninitialised. -/
def Monster.initial : Monster :=
  ⟨[], [], [], [], [], .uninitialized_state_cookies⟩

/-! The `START_BATCH` / `ADD_DOUGH` lines of `PrepareBatches`, in source order. -/
def AlphaBatchDough : List (Msg × String) :=
  [(FIBS_Board, "^board:[a-zA-Z_<>]+:[a-zA-Z_<>]+:[0-9:\\-]+$"),
   (FIBS_BAD_Board, "^board:"),
   (FIBS_YouRoll, "^You roll [1-6] and [1-6]"),
   (FIBS_PlayerRolls, "^[a-zA-Z_<>]+ rolls [1-6] and [1-6]"),
   (FIBS_RollOrDouble, "^It's your turn to roll or double\\."),
   (FIBS_RollOrDouble, "^It's your turn\\. Please roll or double"),
   (FIBS_AcceptRejectDouble, "doubles\\. Type 'accept' or 'reject'\\."),
   (FIBS_Doubles, "^[a-zA-Z_<>]+ doubles\\."),
   (FIBS_PlayerAcceptsDouble, "accepts the double\\."),
   (FIBS_PleaseMove, "^Please move [1-4] pieces?\\."),
   (FIBS_PlayerMoves, "^[a-zA-Z_<>]+ moves"),
   (FIBS_BearingOff, "^Bearing off:"),
   (FIBS_YouReject, "^You reject\\. The game continues\\."),
   (FIBS_YouStopWatching, "You're not watching anymore\\."),
   (FIBS_OpponentLogsOut, "The game was saved\\."),
   (FIBS_OnlyPossibleMove, "^The only possible move is"),
   (FIBS_FirstRoll, "[a-zA-Z_<>]+ rolled [1-6].+rolled [1-6]"),
   (FIBS_MakesFirstMove, " makes the first move\\."),
   (FIBS_YouDouble, "^You double\\. Please wait for "),
   (FIBS_PlayerWantsToResign, "^[a-zA-Z_<>]+ wants to resign\\. You will win [0-9]+ points?\\. Type 'accept' or 'reject'\\."),
   (FIBS_WatchResign, "^[a-zA-Z_<>]+ wants to resign\\. "),
   (FIBS_YouResign, "^You want to resign\\."),
   (FIBS_ResumeMatchAck5, "^You are now playing with [a-zA-Z_<>]+\\. Your running match was loaded\\."),
   (FIBS_JoinNextGame, "^Type 'join' if you want to play the next game, type 'leave' if you don't\\."),
   (FIBS_NewMatchRequest, "^[a-zA-Z_<>]+ wants to play a [0-9]+ point match with you\\."),
   (FIBS_WARNINGSavedMatch, "^WARNING: Don't accept if you want to continue"),
   (FIBS_ResignRefused, "rejects\\. The game continues\\."),
   (FIBS_MatchLength, "^match length:"),
   (FIBS_TypeJoin, "^Type 'join [a-zA-Z_<>]+' to accept\\."),
   (FIBS_YouAreWatching, "^You're now watching "),
   (FIBS_YouStopWatching, "^You stop watching "),
   (FIBS_PlayerStartsWatching, "[a-zA-Z_<>]+ starts watching [a-zA-Z_<>]+\\."),
   (FIBS_PlayerStartsWatching, "[a-zA-Z_<>]+ is watching you\\."),
   (FIBS_PlayerStopsWatching, "[a-zA-Z_<>]+ stops watching [a-zA-Z_<>]+\\."),
   (FIBS_PlayerIsWatching, "[a-zA-Z_<>]+ is watching "),
   (FIBS_ResignWins, "^[a-zA-Z_<>]+ gives up\\. [a-zA-Z_<>]+ wins [0-9]+ points?\\."),
   (FIBS_ResignYouWin, "^[a-zA-Z_<>]+ gives up\\. You win [0-9]+ points?\\."),
   (FIBS_YouAcceptAndWin, "^You accept and win"),
   (FIBS_AcceptWins, "^[a-zA-Z_<>]+ accepts and wins [0-9]+ point"),
   (FIBS_PlayersStartingMatch, "^[a-zA-Z_<>]+ and [a-zA-Z_<>]+ start a [0-9]+ point match"),
   (FIBS_StartingNewGame, "^Starting a new game with "),
   (FIBS_YouGiveUp, "^You give up\\. "),
   (FIBS_YouWinMatch, "^You win the [0-9]+ point match"),
   (FIBS_PlayerWinsMatch, "^[a-zA-Z_<>]+ wins the [0-9]+ point match"),
   (FIBS_ResumingUnlimitedMatch, "^[a-zA-Z_<>]+ and [a-zA-Z_<>]+ are resuming their unlimited match\\."),
   (FIBS_ResumingLimitedMatch, "^[a-zA-Z_<>]+ and [a-zA-Z_<>]+ are resuming their [0-9]+-point match\\."),
   (FIBS_MatchResult, "^[a-zA-Z_<>]+ wins a [0-9]+ point match against "),
   (FIBS_PlayerWantsToResign, "wants to resign\\."),
   (FIBS_BAD_AcceptDouble, "^[a-zA-Z_<>]+ accepts? the double\\. The cube shows [0-9]+\\..+"),
   (FIBS_YouAcceptDouble, "^You accept the double\\. The cube shows"),
   (FIBS_PlayerAcceptsDouble, "^[a-zA-Z_<>]+ accepts the double\\. The cube shows "),
   (FIBS_PlayerAcceptsDouble, "^[a-zA-Z_<>]+ accepts the double\\."),
   (FIBS_ResumeMatchRequest, "^[a-zA-Z_<>]+ wants to resume a saved match with you\\."),
   (FIBS_ResumeMatchAck0, "has joined you\\. Your running match was loaded"),
   (FIBS_YouWinGame, "^You win the game and get"),
   (FIBS_UnlimitedInvite, "^[a-zA-Z_<>]+ wants to play an unlimted match with you\\."),
   (FIBS_PlayerWinsGame, "^[a-zA-Z_<>]+ wins the game and gets [0-9]+ points?. Sorry."),
   (FIBS_PlayerWinsGame, "^[a-zA-Z_<>]+ wins the game and gets [0-9]+ points?."),
   (FIBS_WatchGameWins, "wins the game and gets"),
   (FIBS_PlayersStartingUnlimitedMatch, "start an unlimited match\\."),
   (FIBS_ReportLimitedMatch, "^[a-zA-Z_<>]+ +- +[a-zA-Z_<>]+ .+ point match"),
   (FIBS_ReportUnlimitedMatch, "^[a-zA-Z_<>]+ +- +[a-zA-Z_<>]+ \\(unlimited"),
   (FIBS_ShowMovesStart, "^[a-zA-Z_<>]+ is X - [a-zA-Z_<>]+ is O"),
   (FIBS_ShowMovesRoll, "^[XO]: \\([1-6]"),
   (FIBS_ShowMovesWins, "^[XO]: wins"),
   (FIBS_ShowMovesDoubles, "^[XO]: doubles"),
   (FIBS_ShowMovesAccepts, "^[XO]: accepts"),
   (FIBS_ShowMovesRejects, "^[XO]: rejects"),
   (FIBS_ShowMovesOther, "^[XO]:"),
   (FIBS_ScoreUpdate, "^score in [0-9]+ point match:"),
   (FIBS_MatchStart, "^Score is [0-9]+-[0-9]+ in a [0-9]+ point match\\."),
   (FIBS_Settings, "^Settings of variables:"),
   (FIBS_Turn, "^turn:"),
   (FIBS_Boardstyle, "^boardstyle:"),
   (FIBS_Linelength, "^linelength:"),
   (FIBS_Pagelength, "^pagelength:"),
   (FIBS_Redoubles, "^redoubles:"),
   (FIBS_Sortwho, "^sortwho:"),
   (FIBS_Timezone, "^timezone:"),
   (FIBS_CantMove, "^[a-zA-Z_<>]+ can't move"),
   (FIBS_ListOfGames, "^List of games:"),
   (FIBS_PlayerInfoStart, "^Information about"),
   (FIBS_EmailAddress, "^  Email address:"),
   (FIBS_NoEmail, "^  No email address\\."),
   (FIBS_WavesAgain, "^[a-zA-Z_<>]+ waves goodbye again\\."),
   (FIBS_Waves, "waves goodbye"),
   (FIBS_Waves, "^You wave goodbye\\."),
   (FIBS_WavesAgain, "^You wave goodbye again and log out\\."),
   (FIBS_NoSavedGames, "^no saved games\\."),
   (FIBS_TypeBack, "^You're away\\. Please type 'back'"),
   (FIBS_SavedMatch, "^  [a-zA-Z_<>]+ +[0-9]+ +[0-9]+ +- +"),
   (FIBS_SavedMatchPlaying, "^ \\*[a-zA-Z_<>]+ +[0-9]+ +[0-9]+ +- +"),
   (FIBS_PlayerIsWaitingForYou, "^[a-zA-Z_<>]+ is waiting for you to log in\\."),
   (FIBS_IsAway, "^[a-zA-Z_<>]+ is away: "),
   (FIBS_AllowpipTrue, "^allowpip +YES"),
   (FIBS_AllowpipFalse, "^allowpip +NO"),
   (FIBS_AutoboardTrue, "^autoboard +YES"),
   (FIBS_AutoboardFalse, "^autoboard +NO"),
   (FIBS_AutodoubleTrue, "^autodouble +YES"),
   (FIBS_AutodoubleFalse, "^autodouble +NO"),
   (FIBS_AutomoveTrue, "^automove +YES"),
   (FIBS_AutomoveFalse, "^automove +NO"),
   (FIBS_BellTrue, "^bell +YES"),
   (FIBS_BellFalse, "^bell +NO"),
   (FIBS_CrawfordTrue, "^crawford +YES"),
   (FIBS_CrawfordFalse, "^crawford +NO"),
   (FIBS_DoubleTrue, "^double +YES"),
   (FIBS_DoubleFalse, "^double +NO"),
   (FIBS_MoreboardsTrue, "^moreboards +YES"),
   (FIBS_MoreboardsFalse, "^moreboards +NO"),
   (FIBS_MovesTrue, "^moves +YES"),
   (FIBS_MovesFalse, "^moves +NO"),
   (FIBS_GreedyTrue, "^greedy +YES"),
   (FIBS_GreedyFalse, "^greedy +NO"),
   (FIBS_NotifyTrue, "^notify +YES"),
   (FIBS_NotifyFalse, "^notify +NO"),
   (FIBS_RatingsTrue, "^ratings +YES"),
   (FIBS_RatingsFalse, "^ratings +NO"),
   (FIBS_ReadyTrue, "^ready +YES"),
   (FIBS_ReadyFalse, "^ready +NO"),
   (FIBS_ReportTrue, "^report +YES"),
   (FIBS_ReportFalse, "^report +NO"),
   (FIBS_SilentTrue, "^silent +YES"),
   (FIBS_SilentFalse, "^silent +NO"),
   (FIBS_TelnetTrue, "^telnet +YES"),
   (FIBS_TelnetFalse, "^telnet +NO"),
   (FIBS_WrapTrue, "^wrap +YES"),
   (FIBS_WrapFalse, "^wrap +NO"),
   (FIBS_Junk, "^Closed old connection with user"),
   (FIBS_Done, "^Done\\."),
   (FIBS_YourTurnToMove, "^It's your turn to move\\."),
   (FIBS_SavedMatchesHeader, "^  opponent          matchlength   score \\(your points first\\)"),
   (FIBS_MessagesForYou, "^There are messages for you:"),
   (FIBS_RedoublesSetTo, "^Value of 'redoubles' set to [0-9]+\\."),
   (FIBS_DoublingCubeNow, "^The number on the doubling cube is now [0-9]+"),
   (FIBS_FailedLogin, "^> [0-9]+"),
   (FIBS_Average, "^Time (UTC)  average min max"),
   (FIBS_DiceTest, "^[nST]: "),
   (FIBS_LastLogout, "^  Last logout:"),
   (FIBS_RatingCalcStart, "^rating calculation:"),
   (FIBS_RatingCalcInfo, "^Probability that underdog wins:"),
   (FIBS_RatingCalcInfo, "is 1-Pu if underdog wins"),
   (FIBS_RatingCalcInfo, "^Experience: "),
   (FIBS_RatingCalcInfo, "^K=max\\(1"),
   (FIBS_RatingCalcInfo, "^rating difference"),
   (FIBS_RatingCalcInfo, "^change for"),
   (FIBS_RatingCalcInfo, "^match length  "),
   (FIBS_WatchingHeader, "^Watching players:"),
   (FIBS_SettingsHeader, "^The current settings are:"),
   (FIBS_AwayListHeader, "^The following users are away:"),
   (FIBS_RatingExperience, "^  Rating: +[0-9]+\\."),
   (FIBS_NotLoggedIn, "^  Not logged in right now\\."),
   (FIBS_IsPlayingWith, "is playing with"),
   (FIBS_SavedScoreHeader, "^opponent +matchlength"),
   (FIBS_StillLoggedIn, "^  Still logged in\\."),
   (FIBS_NoOneIsAway, "^None of the users is away\\."),
   (FIBS_PlayerListHeader, "^No  S  username        rating  exp login    idle  from"),
   (FIBS_RatingsHeader, "^ rank name            rating    Experience"),
   (FIBS_ClearScreen, "^.\\[;H.\\[2J"),
   (FIBS_Timeout, "^Connection timed out\\."),
   (FIBS_Goodbye, "           Goodbye\\."),
   (FIBS_LastLogin, "^  Last login:"),
   (FIBS_NoInfo, "^No information found on user")]

def NumericBatchDough : List (Msg × String) :=
  [(CLIP_WHO_INFO, "^5 [^ ]+ - - [01]"),
   (CLIP_WHO_INFO, "^5 [^ ]+ [^ ]+ - [01]"),
   (CLIP_WHO_INFO, "^5 [^ ]+ - [^ ]+ [01]"),
   (FIBS_Average, "^[0-9][0-9]:[0-9][0-9]-"),
   (FIBS_DiceTest, "^[1-6]-1 [0-9]"),
   (FIBS_DiceTest, "^[1-6]: [0-9]"),
   (FIBS_Stat, "^[0-9]+ bytes"),
   (FIBS_Stat, "^[0-9]+ accounts"),
   (FIBS_Stat, "^[0-9]+ ratings saved. reset log"),
   (FIBS_Stat, "^[0-9]+ registered users."),
   (FIBS_Stat, "^[0-9]+\\([0-9]+\\) saved games check by cron"),
   (CLIP_WHO_END, "^6$"),
   (CLIP_SHOUTS, "^13 [a-zA-Z_<>]+ "),
   (CLIP_SAYS, "^12 [a-zA-Z_<>]+ "),
   (CLIP_WHISPERS, "^14 [a-zA-Z_<>]+ "),
   (CLIP_KIBITZES, "^15 [a-zA-Z_<>]+ "),
   (CLIP_YOU_SAY, "^16 [a-zA-Z_<>]+ "),
   (CLIP_YOU_SHOUT, "^17 "),
   (CLIP_YOU_WHISPER, "^18 "),
   (CLIP_YOU_KIBITZ, "^19 "),
   (CLIP_ALERT, "^20 [a-zA-Z_<>]+ "),
   (CLIP_LOGIN, "^7 [a-zA-Z_<>]+ "),
   (CLIP_LOGOUT, "^8 [a-zA-Z_<>]+ "),
   (CLIP_MESSAGE, "^9 [a-zA-Z_<>]+ [0-9]+ "),
   (CLIP_MESSAGE_DELIVERED, "^10 [a-zA-Z_<>]+$"),
   (CLIP_MESSAGE_SAVED, "^11 [a-zA-Z_<>]+$")]

def StarsBatchDough : List (Msg × String) :=
  [(FIBS_Username, "^\\*\\* User"),
   (FIBS_Junk, "^\\*\\* You tell "),
   (FIBS_YouGag, "^\\*\\* You gag"),
   (FIBS_YouUngag, "^\\*\\* You ungag"),
   (FIBS_YouBlind, "^\\*\\* You blind"),
   (FIBS_YouUnblind, "^\\*\\* You unblind"),
   (FIBS_UseToggleReady, "^\\*\\* Use 'toggle ready' first"),
   (FIBS_NewMatchAck9, "^\\*\\* You are now playing an unlimited match with "),
   (FIBS_NewMatchAck10, "^\\*\\* You are now playing a [0-9]+ point match with "),
   (FIBS_NewMatchAck2, "^\\*\\* Player [a-zA-Z_<>]+ has joined you for a"),
   (FIBS_YouTerminated, "^\\*\\* You terminated the game"),
   (FIBS_OpponentLeftGame, "^\\*\\* Player [a-zA-Z_<>]+ has left the game. The game was saved\\."),
   (FIBS_PlayerLeftGame, "has left the game\\."),
   (FIBS_YouInvited, "^\\*\\* You invited"),
   (FIBS_YourLastLogin, "^\\*\\* Last login:"),
   (FIBS_NoOne, "^\\*\\* There is no one called"),
   (FIBS_AllowpipFalse, "^\\*\\* You don't allow the use of the server's 'pip' command\\."),
   (FIBS_AllowpipTrue, "^\\*\\* You allow the use the server's 'pip' command\\."),
   (FIBS_AutoboardFalse, "^\\*\\* The board won't be refreshed"),
   (FIBS_AutoboardTrue, "^\\*\\* The board will be refreshed"),
   (FIBS_AutodoubleTrue, "^\\*\\* You agree that doublets"),
   (FIBS_AutodoubleFalse, "^\\*\\* You don't agree that doublets"),
   (FIBS_AutomoveFalse, "^\\*\\* Forced moves won't"),
   (FIBS_AutomoveTrue, "^\\*\\* Forced moves will"),
   (FIBS_BellFalse, "^\\*\\* Your terminal won't ring"),
   (FIBS_BellTrue, "^\\*\\* Your terminal will ring"),
   (FIBS_CrawfordFalse, "^\\*\\* You would like to play without using the Crawford rule\\."),
   (FIBS_CrawfordTrue, "^\\*\\* You insist on playing with the Crawford rule\\."),
   (FIBS_DoubleFalse, "^\\*\\* You won't be asked if you want to double\\."),
   (FIBS_DoubleTrue, "^\\*\\* You will be asked if you want to double\\."),
   (FIBS_GreedyTrue, "^\\*\\* Will use automatic greedy bearoffs\\."),
   (FIBS_GreedyFalse, "^\\*\\* Won't use automatic greedy bearoffs\\."),
   (FIBS_MoreboardsTrue, "^\\*\\* Will send rawboards after rolling\\."),
   (FIBS_MoreboardsFalse, "^\\*\\* Won't send rawboards after rolling\\."),
   (FIBS_MovesTrue, "^\\*\\* You want a list of moves after this game\\."),
   (FIBS_MovesFalse, "^\\*\\* You won't see a list of moves after this game\\."),
   (FIBS_NotifyFalse, "^\\*\\* You won't be notified"),
   (FIBS_NotifyTrue, "^\\*\\* You'll be notified"),
   (FIBS_RatingsTrue, "^\\*\\* You'll see how the rating changes are calculated\\."),
   (FIBS_RatingsFalse, "^\\*\\* You won't see how the rating changes are calculated\\."),
   (FIBS_ReadyTrue, "^\\*\\* You're now ready to invite or join someone\\."),
   (FIBS_ReadyFalse, "^\\*\\* You're now refusing to play with someone\\."),
   (FIBS_ReportFalse, "^\\*\\* You won't be informed"),
   (FIBS_ReportTrue, "^\\*\\* You will be informed"),
   (FIBS_SilentTrue, "^\\*\\* You won't hear what other players shout\\."),
   (FIBS_SilentFalse, "^\\*\\* You will hear what other players shout\\."),
   (FIBS_TelnetFalse, "^\\*\\* You use a client program"),
   (FIBS_TelnetTrue, "^\\*\\* You use telnet"),
   (FIBS_WrapFalse, "^\\*\\* The server will wrap"),
   (FIBS_WrapTrue, "^\\*\\* Your terminal knows how to wrap"),
   (FIBS_PlayerRefusingGames, "^\\*\\* [a-zA-Z_<>]+ is refusing games\\."),
   (FIBS_NotWatching, "^\\*\\* You're not watching\\."),
   (FIBS_NotWatchingPlaying, "^\\*\\* You're not watching or playing\\."),
   (FIBS_NotPlaying, "^\\*\\* You're not playing\\."),
   (FIBS_NoUser, "^\\*\\* There is no one called "),
   (FIBS_AlreadyPlaying, "is already playing with"),
   (FIBS_DidntInvite, "^\\*\\* [a-zA-Z_<>]+ didn't invite you."),
   (FIBS_BadMove, "^\\*\\* You can't remove this piece"),
   (FIBS_CantMoveFirstMove, "^\\*\\* You can't move "),
   (FIBS_CantShout, "^\\*\\* Please type 'toggle silent' again before you shout\\."),
   (FIBS_MustMove, "^\\*\\* You must give [1-4] moves"),
   (FIBS_MustComeIn, "^\\*\\* You have to remove pieces from the bar in your first move\\."),
   (FIBS_UsersHeardYou, "^\\*\\* [0-9]+ users? heard you\\."),
   (FIBS_Junk, "^\\*\\* Please wait for [a-zA-Z_<>]+ to join too\\."),
   (FIBS_SavedMatchReady, "^\\*\\*[a-zA-Z_<>]+ +[0-9]+ +[0-9]+ +- +[0-9]+"),
   (FIBS_NotYourTurnToRoll, "^\\*\\* It's not your turn to roll the dice\\."),
   (FIBS_NotYourTurnToMove, "^\\*\\* It's not your turn to move\\."),
   (FIBS_YouStopWatching, "^\\*\\* You stop watching"),
   (FIBS_UnknownCommand, "^\\*\\* Unknown command:"),
   (FIBS_CantWatch, "^\\*\\* You can't watch another game while you're playing\\."),
   (FIBS_CantInviteSelf, "^\\*\\* You can't invite yourself\\."),
   (FIBS_DontKnowUser, "^\\*\\* Don't know user"),
   (FIBS_MessageUsage, "^\\*\\* usage: message <user> <text>"),
   (FIBS_PlayerNotPlaying, "^\\*\\* [a-zA-Z_<>]+ is not playing\\."),
   (FIBS_CantTalk, "^\\*\\* You can't talk if you won't listen\\."),
   (FIBS_WontListen, "^\\*\\* [a-zA-Z_<>]+ won't listen to you\\."),
   (FIBS_Why, "Why would you want to do that"),
   (FIBS_Ratings, "^\\* *[0-9]+ +[a-zA-Z_<>]+ +[0-9]+\\.[0-9]+ +[0-9]+"),
   (FIBS_NoSavedMatch, "^\\*\\* There's no saved match with "),
   (FIBS_WARNINGSavedMatch, "^\\*\\* WARNING: Don't accept if you want to continue"),
   (FIBS_CantGagYourself, "^\\*\\* You talk too much, don't you\\?"),
   (FIBS_CantBlindYourself, "^\\*\\* You can't read this message now, can you\\?")]

def LoginBatchDough : List (Msg × String) :=
  [(FIBS_LoginPrompt, "^login:"),
   (CLIP_WELCOME, "^1 [a-zA-Z_<>]+ [0-9]+ "),
   (CLIP_OWN_INFO, "^2 [a-zA-Z_<>]+ [01] [01]"),
   (CLIP_MOTD_BEGIN, "^3$"),
   (FIBS_FailedLogin, "^> [0-9]+")]

def MOTDBatchDough : List (Msg × String) :=
  [(CLIP_MOTD_END, "^4$")]

/-! ## The engine -/

/-- `AddCookieDough`: compile one pattern; `none` when `regcomp` fails. -/
def AddCookieDough (E : Env) (message : Msg) (re : String) : Option CookieDough :=
  match E.regcomp re with
  | none => none
  | some r => some ⟨r, E.val message⟩

/-- A run of `START_BATCH` / `ADD_DOUGH` lines: the entries linked before the first
failing `AddCookieDough`, and whether every line succeeded. -/
def addDoughs (E : Env) : List (Msg × String) → List CookieDough × Bool
  | [] => ([], true)
  | (m, re) :: rest =>
    match AddCookieDough E m re with
    | none => ([], false)
    | some d => ((d :: (addDoughs E rest).1), (addDoughs E rest).2)

/-- `PrepareBatches`: build the batches in source order, returning at the first failure
with `state` untouched; set `state` to `login_state_cookies` at the end. -/
def PrepareBatches (E : Env) (s : Monster) : Monster :=
  let a := addDoughs E AlphaBatchDough
  if a.2 = false then { s with AlphaBatch := a.1 } else
  let n := addDoughs E NumericBatchDough
  if n.2 = false then { s with AlphaBatch := a.1, NumericBatch := n.1 } else
  let t := addDoughs E StarsBatchDough
  if t.2 = false then { s with AlphaBatch := a.1, NumericBatch := n.1, StarsBatch := t.1 } else
  let l := addDoughs E LoginBatchDough
  if l.2 = false then
    { s with AlphaBatch := a.1, NumericBatch := n.1, StarsBatch := t.1, LoginBatch := l.1 } else
  let m := addDoughs E MOTDBatchDough
  if m.2 = false then
    { s with AlphaBatch := a.1, NumericBatch := n.1, StarsBatch := t.1, LoginBatch := l.1,
             MOTDBatch := m.1 } else
  { AlphaBatch := a.1, NumericBatch := n.1, StarsBatch := t.1, LoginBatch := l.1,
    MOTDBatch := m.1, state := .login_state_cookies }

/-- `loop_batch_search`: the cookie of the first entry whose pattern matches, else the
default. -/
def loop_batch_search : List CookieDough → String → Int → Int
  | [], _, default_cookie => default_cookie
  | ptr :: next, msg, default_cookie =>
    if regexec ptr.regex msg then ptr.cookie else loop_batch_search next msg default_cookie

/-- `ReleaseFIBSCookieMonster`: nothing when uninitialised; otherwise every batch is
trashed and `state` becomes uninitialised. -/
def ReleaseFIBSCookieMonster (s : Monster) : Monster :=
  if s.state = .uninitialized_state_cookies then s
  else ⟨[], [], [], [], [], .uninitialized_state_cookies⟩

/-- `logout_state_cookies`. -/
def logout_state_cookies (E : Env) (s : Monster) (_message : String) : Int × Monster :=
  (E.val FIBS_PostGoodbye, s)

/-- `run_state_cookies`. -/
def run_state_cookies (E : Env) (s : Monster) (message : String) : Int × Monster :=
  match message.data with
  | [] => (E.val FIBS_Empty, s)
  | ch :: _ =>
    let cookie :=
      if ch.isDigit then loop_batch_search s.NumericBatch message (E.val FIBS_Unknown)
      else if ch = '*' then loop_batch_search s.StarsBatch message (E.val FIBS_Unknown)
      else loop_batch_search s.AlphaBatch message (E.val FIBS_Unknown)
    if cookie = E.val FIBS_Goodbye ∨ cookie = E.val FIBS_Timeout then
      (cookie, { ReleaseFIBSCookieMonster s with state := .logout_state_cookies })
    else (cookie, s)

/-- `motd_state_cookies`. -/
def motd_state_cookies (E : Env) (s : Monster) (message : String) : Int × Monster :=
  let cookie := loop_batch_search s.MOTDBatch message (E.val FIBS_MOTD)
  if cookie = E.val CLIP_MOTD_END then (cookie, { s with state := .run_state_cookies })
  else (cookie, s)

/-- `login_state_cookies`. -/
def login_state_cookies (E : Env) (s : Monster) (message : String) : Int × Monster :=
  let cookie := loop_batch_search s.LoginBatch message (E.val FIBS_PreLogin)
  if cookie = E.val CLIP_MOTD_BEGIN then (cookie, { s with state := .motd_state_cookies })
  else (cookie, s)

/-- `uninitialized_state_cookies`: prepare the batches, set `state` to
`login_state_cookies`, and classify the message through `FIBSCookie`, which calls the
function `state` now holds. -/
def uninitialized_state_cookies (E : Env) (s : Monster) (message : String) : Int × Monster :=
  login_state_cookies E { PrepareBatches E s with state := .login_state_cookies } message

/-- `FIBSCookie`: call the current state function; the result is the cookie and the
variables afterwards. -/
def FIBSCookie (E : Env) (s : Monster) (message : String) : Int × Monster :=
  match s.state with
  | .uninitialized_state_cookies => uninitialized_state_cookies E s message
  | .login_state_cookies => login_state_cookies E s message
  | .motd_state_cookies => motd_state_cookies E s message
  | .run_state_cookies => run_state_cookies E s message
  | .logout_state_cookies => logout_state_cookies E s message

/-- `ResetFIBSCookieMonster`. -/
def ResetFIBSCookieMonster (E : Env) (s : Monster) : Monster :=
  if s.state = .uninitialized_state_cookies then PrepareBatches E s
  else { s with state := .login_state_cookies }

/-! ## Auxiliary definitions used to state the properties -/

/-- Modelled from the spec: `FIBSCookieMonster.h` is absent; the codes form one fixed
enumeration, so no `FIBS_` identifier has the value of a CLIP identifier (1 .. 20). -/
def ClipFree (hdr : Msg → Int) : Prop := ∀ m, hdr m < 1 ∨ 20 < hdr m

/-- A sample numbering of the `FIBS_` identifiers, above `CLIP_LAST_CLIP_ID`. -/
def sampleHeader : Msg → Int := fun m => 21 + (m.toCtorIdx : Int)

/-- The batch a table stands for when every pattern compiles: one entry per line of the
table, in order. -/
def bakedBatch (hdr : Msg → Int) (tbl : List (Msg × String)) : List CookieDough :=
  tbl.filterMap (fun d => AddCookieDough (libc hdr) d.1 d.2)

/-- The variables with all five tables built and `state` as given. -/
def Monster.ready (hdr : Msg → Int) (st : StateFn) : Monster :=
  { LoginBatch := bakedBatch hdr LoginBatchDough
    MOTDBatch := bakedBatch hdr MOTDBatchDough
    AlphaBatch := bakedBatch hdr AlphaBatchDough
    NumericBatch := bakedBatch hdr NumericBatchDough
    StarsBatch := bakedBatch hdr StarsBatchDough
    state := st }

/-- The identifier of the first line of a table whose pattern matches the message. -/
def firstHit : List (Msg × String) → String → Option Msg
  | [], _ => none
  | (m, re) :: rest, msg =>
    match regcompERE re with
    | none => firstHit rest msg
    | some r => if regexec r msg then some m else firstHit rest msg

/-- Feed a sequence of lines to the engine, one `FIBSCookie` call each. -/
def feed (E : Env) (s : Monster) (lines : List String) : Monster :=
  lines.foldl (fun t l => (FIBSCookie E t l).2) s

/-- The values of the variables a caller can reach from program start through the three
public functions `FIBSCookie`, `ResetFIBSCookieMonster` and `ReleaseFIBSCookieMonster`. -/
inductive Reachable (E : Env) : Monster → Prop where
  | initial : Reachable E Monster.initial
  | cookie (s : Monster) (message : String) :
      Reachable E s → Reachable E (FIBSCookie E s message).2
  | reset (s : Monster) : Reachable E s → Reachable E (ResetFIBSCookieMonster E s)
  | release (s : Monster) : Reachable E s → Reachable E (ReleaseFIBSCookieMonster s)

/-- Pattern compilation succeeds: every `START_BATCH` / `ADD_DOUGH` line of every table
yields an entry. -/
def Compiles (E : Env) : Prop :=
  (addDoughs E AlphaBatchDough).2 = true ∧ (addDoughs E NumericBatchDough).2 = true ∧
  (addDoughs E StarsBatchDough).2 = true ∧ (addDoughs E LoginBatchDough).2 = true ∧
  (addDoughs E MOTDBatchDough).2 = true

/-- Every entry of every batch carries the code of a line of the table of that batch. -/
def FromTables (E : Env) (s : Monster) : Prop :=
  (∀ e ∈ s.LoginBatch, ∃ d ∈ LoginBatchDough, e.cookie = E.val d.1) ∧
  (∀ e ∈ s.MOTDBatch, ∃ d ∈ MOTDBatchDough, e.cookie = E.val d.1) ∧
  (∀ e ∈ s.AlphaBatch, ∃ d ∈ AlphaBatchDough, e.cookie = E.val d.1) ∧
  (∀ e ∈ s.NumericBatch, ∃ d ∈ NumericBatchDough, e.cookie = E.val d.1) ∧
  (∀ e ∈ s.StarsBatch, ∃ d ∈ StarsBatchDough, e.cookie = E.val d.1)

/-- A pattern compiler that fails on the one pattern `bad` and is the C library compiler
on every other pattern. -/
def failOn (bad : String) : String → Option Regex :=
  fun re => if re = bad then none else regcompERE re

/-- The identifier of the first line whose pattern matches the message, among the lines
of a table that come before the first compile failure under `comp`. -/
def firstHitWith (comp : String → Option Regex) : List (Msg × String) → String → Option Msg
  | [], _ => none
  | (m, re) :: rest, msg =>
    match comp re with
    | none => none
    | some r => if regexec r msg then some m else firstHitWith comp rest msg

/-- Modelled from the spec: `FIBSCookieMonster.h` is absent; the codes form one fixed
enumeration, so different message identifiers have different values. -/
def DistinctCodes (hdr : Msg → Int) : Prop := Function.Injective (Msg.value hdr)

/-- A character of the bracket expression `[a-zA-Z_<>]`. -/
def isNameChar (c : Char) : Bool :=
  inRanges [('a', 'z'), ('A', 'Z'), ('_', '_'), ('<', '<'), ('>', '>')] c

/-- A character of the bracket expression `[0-9]`. -/
def isDigitChar (c : Char) : Bool := inRanges [('0', '9')] c

/-! ## Lemmas -/

theorem sampleHeader_clipFree : ClipFree sampleHeader := by
  intro m
  right
  unfold sampleHeader
  omega

theorem loop_batch_search_nil (msg : String) (d : Int) : loop_batch_search [] msg d = d := rfl

theorem loop_batch_search_cons (e : CookieDough) (es : List CookieDough) (msg : String)
    (d : Int) :
    loop_batch_search (e :: es) msg d
      = if regexec e.regex msg then e.cookie else loop_batch_search es msg d := rfl

/-- The search result is the default or the cookie of a matching entry. -/
theorem loop_batch_search_cases (batch : List CookieDough) (msg : String) (d : Int) :
    (∃ pre e post, batch = pre ++ e :: post ∧ (∀ x ∈ pre, regexec x.regex msg = false) ∧
        regexec e.regex msg = true ∧ loop_batch_search batch msg d = e.cookie) ∨
    ((∀ x ∈ batch, regexec x.regex msg = false) ∧ loop_batch_search batch msg d = d) := by
  induction batch with
  | nil => right; simp [loop_batch_search]
  | cons a as ih =>
    by_cases ha : regexec a.regex msg = true
    · left
      exact ⟨[], a, as, rfl, by simp, ha, by simp [loop_batch_search, ha]⟩
    · have hs : loop_batch_search (a :: as) msg d = loop_batch_search as msg d := by
        simp [loop_batch_search, ha]
      rcases ih with ⟨pre, e, post, h1, h2, h3, h4⟩ | ⟨h1, h2⟩
      · left
        refine ⟨a :: pre, e, post, by simp [h1], ?_, h3, by rw [hs, h4]⟩
        intro x hx
        rcases List.mem_cons.mp hx with rfl | hx
        · simpa using ha
        · exact h2 x hx
      · right
        refine ⟨?_, by rw [hs, h2]⟩
        intro x hx
        rcases List.mem_cons.mp hx with rfl | hx
        · simpa using ha
        · exact h1 x hx

theorem addDoughs_snd (E : Env) (tbl : List (Msg × String)) :
    (addDoughs E tbl).2 = tbl.all (fun d => (E.regcomp d.2).isSome) := by
  induction tbl with
  | nil => rfl
  | cons a as ih =>
    obtain ⟨m, re⟩ := a
    cases h : E.regcomp re with
    | none => simp [addDoughs, AddCookieDough, h]
    | some r => simp [addDoughs, AddCookieDough, h, ih]

theorem addDoughs_fst (E : Env) (tbl : List (Msg × String))
    (h : tbl.all (fun d => (E.regcomp d.2).isSome) = true) :
    (addDoughs E tbl).1 = tbl.filterMap (fun d => AddCookieDough E d.1 d.2) := by
  induction tbl with
  | nil => rfl
  | cons a as ih =>
    obtain ⟨m, re⟩ := a
    simp only [List.all_cons, Bool.and_eq_true] at h
    cases hr : E.regcomp re with
    | none => simp [hr] at h
    | some r => simp [addDoughs, AddCookieDough, hr, ih h.2]

theorem AlphaBatchDough_compiles :
    AlphaBatchDough.all (fun d => (regcompERE d.2).isSome) = true := by decide!

theorem NumericBatchDough_compiles :
    NumericBatchDough.all (fun d => (regcompERE d.2).isSome) = true := by decide!

theorem StarsBatchDough_compiles :
    StarsBatchDough.all (fun d => (regcompERE d.2).isSome) = true := by decide!

theorem LoginBatchDough_compiles :
    LoginBatchDough.all (fun d => (regcompERE d.2).isSome) = true := by decide!

theorem MOTDBatchDough_compiles :
    MOTDBatchDough.all (fun d => (regcompERE d.2).isSome) = true := by decide!

/-- Every line of a table that compiles contributes one entry to the batch. -/
theorem bakedBatch_length (hdr : Msg → Int) (tbl : List (Msg × String))
    (h : tbl.all (fun d => (regcompERE d.2).isSome) = true) :
    (bakedBatch hdr tbl).length = tbl.length := by
  induction tbl with
  | nil => rfl
  | cons a as ih =>
    obtain ⟨m, re⟩ := a
    simp only [List.all_cons, Bool.and_eq_true] at h
    cases hr : regcompERE re with
    | none => simp [hr] at h
    | some r =>
      have := ih h.2
      simp [bakedBatch, AddCookieDough, libc, hr] at this ⊢
      exact this

/-- With the C library compiler every pattern of every table compiles, so
`PrepareBatches` builds all five batches whatever the variables held before. -/
theorem PrepareBatches_libc (hdr : Msg → Int) (s : Monster) :
    PrepareBatches (libc hdr) s = Monster.ready hdr .login_state_cookies := by
  have ha := AlphaBatchDough_compiles
  have hn := NumericBatchDough_compiles
  have ht := StarsBatchDough_compiles
  have hl := LoginBatchDough_compiles
  have hm := MOTDBatchDough_compiles
  have fa := addDoughs_fst (libc hdr) AlphaBatchDough ha
  have fn := addDoughs_fst (libc hdr) NumericBatchDough hn
  have ft := addDoughs_fst (libc hdr) StarsBatchDough ht
  have fl := addDoughs_fst (libc hdr) LoginBatchDough hl
  have fm := addDoughs_fst (libc hdr) MOTDBatchDough hm
  have sa := addDoughs_snd (libc hdr) AlphaBatchDough
  have sn := addDoughs_snd (libc hdr) NumericBatchDough
  have st := addDoughs_snd (libc hdr) StarsBatchDough
  have sl := addDoughs_snd (libc hdr) LoginBatchDough
  have sm := addDoughs_snd (libc hdr) MOTDBatchDough
  rw [show (libc hdr).regcomp = regcompERE from rfl] at sa sn st sl sm
  rw [ha] at sa
  rw [hn] at sn
  rw [ht] at st
  rw [hl] at sl
  rw [hm] at sm
  unfold PrepareBatches Monster.ready bakedBatch
  simp only [sa, sn, st, sl, sm, fa, fn, ft, fl, fm]
  simp

/-- Searching a built batch is finding the first matching line of its table. -/
theorem loop_batch_search_baked (hdr : Msg → Int) (tbl : List (Msg × String)) (msg : String)
    (d : Int) :
    loop_batch_search (bakedBatch hdr tbl) msg d
      = match firstHit tbl msg with
        | some m => (libc hdr).val m
        | none => d := by
  induction tbl with
  | nil => rfl
  | cons a as ih =>
    obtain ⟨m, re⟩ := a
    cases hr : regcompERE re with
    | none =>
      have : bakedBatch hdr ((m, re) :: as) = bakedBatch hdr as := by
        simp [bakedBatch, AddCookieDough, libc, hr]
      rw [this, ih]
      simp [firstHit, hr]
    | some r =>
      have : bakedBatch hdr ((m, re) :: as) = ⟨r, (libc hdr).val m⟩ :: bakedBatch hdr as := by
        simp [bakedBatch, AddCookieDough, libc, hr]
      rw [this, loop_batch_search_cons, ih]
      by_cases hx : regexec r msg = true
      · simp [firstHit, hr, hx]
      · simp [firstHit, hr, hx]

/-- A hit comes from a line of the table whose compiled pattern matches. -/
theorem firstHit_some (tbl : List (Msg × String)) (msg : String) (m : Msg)
    (h : firstHit tbl msg = some m) :
    ∃ re r, (m, re) ∈ tbl ∧ regcompERE re = some r ∧ regexec r msg = true := by
  induction tbl with
  | nil => simp [firstHit] at h
  | cons a as ih =>
    obtain ⟨m1, re⟩ := a
    cases hr : regcompERE re with
    | none =>
      simp only [firstHit, hr] at h
      obtain ⟨re2, r2, h1, h2, h3⟩ := ih h
      exact ⟨re2, r2, List.mem_cons_of_mem _ h1, h2, h3⟩
    | some r =>
      simp only [firstHit, hr] at h
      by_cases hx : regexec r msg = true
      · simp only [hx, if_true, Option.some.injEq] at h
        subst h
        exact ⟨re, r, List.mem_cons_self _ _, hr, hx⟩
      · simp only [hx] at h
        obtain ⟨re2, r2, h1, h2, h3⟩ := ih h
        exact ⟨re2, r2, List.mem_cons_of_mem _ h1, h2, h3⟩

/-- A pattern that begins with `^` cannot match after the start of the message. -/
theorem searchFrom_bol_false (r : Regex) (cs : List Char) :
    searchFrom (.seq .bol r) false cs = false := by
  induction cs with
  | nil => simp [searchFrom, matchesAt, ends]
  | cons c cs ih => simp [searchFrom, matchesAt, ends, ih]

/-- A pattern that begins with `^` matches exactly when the rest matches at the start. -/
theorem regexec_bol (r : Regex) (msg : String) :
    regexec (.seq .bol r) msg = matchesAt r (true, msg.data) := by
  unfold regexec
  cases h : msg.data with
  | nil => simp [searchFrom, matchesAt, ends]
  | cons c cs => simp [searchFrom, matchesAt, ends, searchFrom_bol_false]

/-- The pattern `^c$` matches exactly the one-character message `c`. -/
theorem regexec_bol_chr_eol (c : Char) (msg : String) :
    regexec (.seq .bol (.seq (.chr c) .eol)) msg = true ↔ msg.data = [c] := by
  rw [regexec_bol]
  cases h : msg.data with
  | nil => simp [matchesAt, ends, stepChar]
  | cons x xs =>
    by_cases hx : x = c
    · cases xs with
      | nil => simp [matchesAt, ends, stepChar, hx]
      | cons y ys => simp [matchesAt, ends, stepChar, hx]
    · simp [matchesAt, ends, stepChar, hx]

theorem regcompERE_motd_begin :
    regcompERE "^3$" = some (.seq .bol (.seq (.chr '3') .eol)) := by decide

theorem regcompERE_motd_end :
    regcompERE "^4$" = some (.seq .bol (.seq (.chr '4') .eol)) := by decide

theorem string_eq_iff_data (a b : String) : a = b ↔ a.data = b.data :=
  ⟨fun h => by rw [h], String.ext⟩

/-- In the login state the search of the built login batch returns `CLIP_MOTD_BEGIN`
exactly on the line `3`. -/
theorem login_search_eq_motd_begin (hdr : Msg → Int) (hc : ClipFree hdr) (L : String) :
    loop_batch_search (bakedBatch hdr LoginBatchDough) L ((libc hdr).val FIBS_PreLogin) = 3
      ↔ L = "3" := by
  rw [loop_batch_search_baked]
  constructor
  · intro h
    cases hf : firstHit LoginBatchDough L with
    | none =>
      rw [hf] at h
      have := hc FIBS_PreLogin
      simp only [Env.val, Msg.value, libc] at h
      omega
    | some m =>
      rw [hf] at h
      obtain ⟨re, r, hmem, hre, hx⟩ := firstHit_some _ _ _ hf
      simp only [LoginBatchDough, List.mem_cons, Prod.mk.injEq, List.mem_singleton,
        List.not_mem_nil, or_false] at hmem
      rcases hmem with ⟨rfl, rfl⟩ | ⟨rfl, rfl⟩ | ⟨rfl, rfl⟩ | ⟨rfl, rfl⟩ | ⟨rfl, rfl⟩
      · have := hc FIBS_LoginPrompt
        simp only [Env.val, Msg.value, libc] at h
        omega
      · simp [Env.val, Msg.value] at h
      · simp [Env.val, Msg.value] at h
      · rw [regcompERE_motd_begin] at hre
        cases hre
        rw [regexec_bol_chr_eol] at hx
        exact (string_eq_iff_data _ _).mpr hx
      · have := hc FIBS_FailedLogin
        simp only [Env.val, Msg.value, libc] at h
        omega
  · intro h
    subst h
    have : firstHit LoginBatchDough "3" = some CLIP_MOTD_BEGIN := by decide
    rw [this]
    rfl

/-- In the MOTD state the search of the built MOTD batch returns `CLIP_MOTD_END` on the
line `4` and the default on every other line. -/
theorem motd_search (hdr : Msg → Int) (L : String) :
    loop_batch_search (bakedBatch hdr MOTDBatchDough) L ((libc hdr).val FIBS_MOTD)
      = if L = "4" then 4 else hdr FIBS_MOTD := by
  have hb : bakedBatch hdr MOTDBatchDough = [⟨.seq .bol (.seq (.chr '4') .eol), 4⟩] := by
    simp [bakedBatch, MOTDBatchDough, AddCookieDough, libc, regcompERE_motd_end, Env.val,
      Msg.value]
  rw [hb, loop_batch_search_cons, loop_batch_search_nil]
  by_cases h : L = "4"
  · subst h
    have hx : regexec (.seq .bol (.seq (.chr '4') .eol)) "4" = true :=
      (regexec_bol_chr_eol '4' "4").mpr rfl
    simp [hx]
  · have hx : ¬ regexec (.seq .bol (.seq (.chr '4') .eol)) L = true := fun hx =>
      h ((string_eq_iff_data _ _).mpr ((regexec_bol_chr_eol '4' L).mp hx))
    simp [hx, h, Env.val, Msg.value, libc]

/-- An uninitialised engine on the C library builds every table and classifies the line
in the login state. -/
theorem FIBSCookie_uninitialized (hdr : Msg → Int) (s : Monster)
    (hs : s.state = .uninitialized_state_cookies) (L : String) :
    FIBSCookie (libc hdr) s L
      = login_state_cookies (libc hdr) (Monster.ready hdr .login_state_cookies) L := by
  simp only [FIBSCookie, hs, uninitialized_state_cookies, PrepareBatches_libc]
  rfl

theorem firstHit_login_3 : firstHit LoginBatchDough "3" = some CLIP_MOTD_BEGIN := by decide

theorem firstHit_login_prompt : firstHit LoginBatchDough "login:" = some FIBS_LoginPrompt := by
  decide

theorem firstHit_alpha_goodbye :
    firstHit AlphaBatchDough "           Goodbye." = some FIBS_Goodbye := by decide!

theorem login_state_cookies_eq (E : Env) (s : Monster) (L : String) :
    login_state_cookies E s L
      = if loop_batch_search s.LoginBatch L (E.val FIBS_PreLogin) = E.val CLIP_MOTD_BEGIN then
          (loop_batch_search s.LoginBatch L (E.val FIBS_PreLogin),
            { s with state := .motd_state_cookies })
        else (loop_batch_search s.LoginBatch L (E.val FIBS_PreLogin), s) := rfl

theorem motd_state_cookies_eq (E : Env) (s : Monster) (L : String) :
    motd_state_cookies E s L
      = if loop_batch_search s.MOTDBatch L (E.val FIBS_MOTD) = E.val CLIP_MOTD_END then
          (loop_batch_search s.MOTDBatch L (E.val FIBS_MOTD),
            { s with state := .run_state_cookies })
        else (loop_batch_search s.MOTDBatch L (E.val FIBS_MOTD), s) := rfl

/-- The run state on a line whose first character is a digit. -/
theorem run_state_cookies_numeric (E : Env) (s : Monster) (L : String) (ch : Char)
    (cs : List Char) (hL : L.data = ch :: cs) (hd : ch.isDigit = true) :
    run_state_cookies E s L
      = if loop_batch_search s.NumericBatch L (E.val FIBS_Unknown) = E.val FIBS_Goodbye ∨
            loop_batch_search s.NumericBatch L (E.val FIBS_Unknown) = E.val FIBS_Timeout then
          (loop_batch_search s.NumericBatch L (E.val FIBS_Unknown),
            { ReleaseFIBSCookieMonster s with state := .logout_state_cookies })
        else (loop_batch_search s.NumericBatch L (E.val FIBS_Unknown), s) := by
  simp only [run_state_cookies, hL, hd, if_true]

/-- The run state on a line whose first character is `*`. -/
theorem run_state_cookies_stars (E : Env) (s : Monster) (L : String)
    (cs : List Char) (hL : L.data = '*' :: cs) :
    run_state_cookies E s L
      = if loop_batch_search s.StarsBatch L (E.val FIBS_Unknown) = E.val FIBS_Goodbye ∨
            loop_batch_search s.StarsBatch L (E.val FIBS_Unknown) = E.val FIBS_Timeout then
          (loop_batch_search s.StarsBatch L (E.val FIBS_Unknown),
            { ReleaseFIBSCookieMonster s with state := .logout_state_cookies })
        else (loop_batch_search s.StarsBatch L (E.val FIBS_Unknown), s) := by
  have hd : ('*' : Char).isDigit = false := by decide
  simp [run_state_cookies, hL, hd]

/-- The run state on a line whose first character is neither a digit nor `*`. -/
theorem run_state_cookies_alpha (E : Env) (s : Monster) (L : String) (ch : Char)
    (cs : List Char) (hL : L.data = ch :: cs) (hd : ch.isDigit = false) (hstar : ch ≠ '*') :
    run_state_cookies E s L
      = if loop_batch_search s.AlphaBatch L (E.val FIBS_Unknown) = E.val FIBS_Goodbye ∨
            loop_batch_search s.AlphaBatch L (E.val FIBS_Unknown) = E.val FIBS_Timeout then
          (loop_batch_search s.AlphaBatch L (E.val FIBS_Unknown),
            { ReleaseFIBSCookieMonster s with state := .logout_state_cookies })
        else (loop_batch_search s.AlphaBatch L (E.val FIBS_Unknown), s) := by
  simp [run_state_cookies, hL, hd, hstar]

/-- A fresh engine on the line `3`: `CLIP_MOTD_BEGIN`, all tables built, MOTD state. -/
theorem FIBSCookie_initial_3 (hdr : Msg → Int) :
    FIBSCookie (libc hdr) Monster.initial "3" = (3, Monster.ready hdr .motd_state_cookies) := by
  rw [FIBSCookie_uninitialized hdr Monster.initial rfl, login_state_cookies_eq]
  have h : loop_batch_search (Monster.ready hdr .login_state_cookies).LoginBatch "3"
      ((libc hdr).val FIBS_PreLogin) = 3 := by
    show loop_batch_search (bakedBatch hdr LoginBatchDough) "3" _ = 3
    rw [loop_batch_search_baked, firstHit_login_3]
    rfl
  have hv : (libc hdr).val CLIP_MOTD_BEGIN = 3 := rfl
  rw [hv, if_pos h, h]
  rfl

/-- The built engine in the MOTD state on the line `4`: `CLIP_MOTD_END`, run state. -/
theorem FIBSCookie_ready_4 (hdr : Msg → Int) :
    FIBSCookie (libc hdr) (Monster.ready hdr .motd_state_cookies) "4"
      = (4, Monster.ready hdr .run_state_cookies) := by
  have h : loop_batch_search (Monster.ready hdr .motd_state_cookies).MOTDBatch "4"
      ((libc hdr).val FIBS_MOTD) = 4 := by
    show loop_batch_search (bakedBatch hdr MOTDBatchDough) "4" _ = 4
    rw [motd_search, if_pos rfl]
  have hv : (libc hdr).val CLIP_MOTD_END = 4 := rfl
  have hf : FIBSCookie (libc hdr) (Monster.ready hdr .motd_state_cookies) "4"
      = motd_state_cookies (libc hdr) (Monster.ready hdr .motd_state_cookies) "4" := rfl
  rw [hf, motd_state_cookies_eq, hv, if_pos h, h]
  rfl

/-- The built engine in the run state on the goodbye line: `FIBS_Goodbye`, every batch
released, logout state. -/
theorem FIBSCookie_ready_goodbye (hdr : Msg → Int) :
    FIBSCookie (libc hdr) (Monster.ready hdr .run_state_cookies) "           Goodbye."
      = (hdr FIBS_Goodbye, ⟨[], [], [], [], [], .logout_state_cookies⟩) := by
  have h : loop_batch_search (Monster.ready hdr .run_state_cookies).AlphaBatch
      "           Goodbye." ((libc hdr).val FIBS_Unknown) = (libc hdr).val FIBS_Goodbye := by
    show loop_batch_search (bakedBatch hdr AlphaBatchDough) _ _ = _
    rw [loop_batch_search_baked, firstHit_alpha_goodbye]
  have hf : FIBSCookie (libc hdr) (Monster.ready hdr .run_state_cookies) "           Goodbye."
      = run_state_cookies (libc hdr) (Monster.ready hdr .run_state_cookies)
          "           Goodbye." := rfl
  rw [hf, run_state_cookies_alpha (libc hdr) _ "           Goodbye." ' '
    "          Goodbye.".data rfl (by decide) (by decide), if_pos (Or.inl h), h]
  rfl

theorem libc_compiles (hdr : Msg → Int) : Compiles (libc hdr) := by
  unfold Compiles
  rw [addDoughs_snd, addDoughs_snd, addDoughs_snd, addDoughs_snd, addDoughs_snd]
  exact ⟨AlphaBatchDough_compiles, NumericBatchDough_compiles, StarsBatchDough_compiles,
    LoginBatchDough_compiles, MOTDBatchDough_compiles⟩

/-- When every pattern compiles, `PrepareBatches` sets all five batches and the login
state. -/
theorem PrepareBatches_of_compiles (E : Env) (hE : Compiles E) (s : Monster) :
    PrepareBatches E s
      = { LoginBatch := (addDoughs E LoginBatchDough).1
          MOTDBatch := (addDoughs E MOTDBatchDough).1
          AlphaBatch := (addDoughs E AlphaBatchDough).1
          NumericBatch := (addDoughs E NumericBatchDough).1
          StarsBatch := (addDoughs E StarsBatchDough).1
          state := .login_state_cookies } := by
  obtain ⟨ha, hn, ht, hl, hm⟩ := hE
  unfold PrepareBatches
  simp [ha, hn, ht, hl, hm]

/-- The state after `login_state_cookies` is the state before or the MOTD state. -/
theorem login_state_cookies_state (E : Env) (s : Monster) (L : String) :
    (login_state_cookies E s L).2.state = s.state ∨
    (login_state_cookies E s L).2.state = .motd_state_cookies := by
  rw [login_state_cookies_eq]
  split
  · right; rfl
  · left; rfl

/-- The state after `motd_state_cookies` is the state before or the run state. -/
theorem motd_state_cookies_state (E : Env) (s : Monster) (L : String) :
    (motd_state_cookies E s L).2.state = s.state ∨
    (motd_state_cookies E s L).2.state = .run_state_cookies := by
  rw [motd_state_cookies_eq]
  split
  · right; rfl
  · left; rfl

/-- The run state on the empty line. -/
theorem run_state_cookies_empty (E : Env) (s : Monster) (L : String) (hL : L.data = []) :
    run_state_cookies E s L = (E.val FIBS_Empty, s) := by
  simp only [run_state_cookies, hL]

/-- The result of `run_state_cookies` on a non-empty line, for some cookie `c`. -/
theorem run_state_cookies_shape (E : Env) (s : Monster) (L : String) (ch : Char)
    (cs : List Char) (hL : L.data = ch :: cs) :
    ∃ c : Int, run_state_cookies E s L
        = if c = E.val FIBS_Goodbye ∨ c = E.val FIBS_Timeout then
            (c, { ReleaseFIBSCookieMonster s with state := .logout_state_cookies })
          else (c, s) := by
  simp only [run_state_cookies, hL]
  exact ⟨_, rfl⟩

/-- The state after `run_state_cookies` is the state before or the logout state. -/
theorem run_state_cookies_state (E : Env) (s : Monster) (L : String) :
    (run_state_cookies E s L).2.state = s.state ∨
    (run_state_cookies E s L).2.state = .logout_state_cookies := by
  cases hL : L.data with
  | nil =>
    rw [run_state_cookies_empty E s L hL]
    left; rfl
  | cons ch cs =>
    obtain ⟨c, hc⟩ := run_state_cookies_shape E s L ch cs hL
    rw [hc]
    split
    · right; rfl
    · left; rfl

/-- Where a `FIBSCookie` call can leave `state`, by the state it starts in. -/
theorem FIBSCookie_next_state (E : Env) (s : Monster) (L : String) :
    match s.state with
    | .uninitialized_state_cookies =>
      (FIBSCookie E s L).2.state = .login_state_cookies ∨
      (FIBSCookie E s L).2.state = .motd_state_cookies
    | .login_state_cookies =>
      (FIBSCookie E s L).2.state = .login_state_cookies ∨
      (FIBSCookie E s L).2.state = .motd_state_cookies
    | .motd_state_cookies =>
      (FIBSCookie E s L).2.state = .motd_state_cookies ∨
      (FIBSCookie E s L).2.state = .run_state_cookies
    | .run_state_cookies =>
      (FIBSCookie E s L).2.state = .run_state_cookies ∨
      (FIBSCookie E s L).2.state = .logout_state_cookies
    | .logout_state_cookies => (FIBSCookie E s L).2.state = .logout_state_cookies := by
  cases hs : s.state with
  | uninitialized_state_cookies =>
    simp only [FIBSCookie, hs, uninitialized_state_cookies]
    exact login_state_cookies_state E _ L
  | login_state_cookies =>
    simp only [FIBSCookie, hs]
    have := login_state_cookies_state E s L
    rw [hs] at this
    exact this
  | motd_state_cookies =>
    simp only [FIBSCookie, hs]
    have := motd_state_cookies_state E s L
    rw [hs] at this
    exact this
  | run_state_cookies =>
    simp only [FIBSCookie, hs]
    have := run_state_cookies_state E s L
    rw [hs] at this
    exact this
  | logout_state_cookies =>
    simp only [FIBSCookie, hs, logout_state_cookies]

/-- A `FIBSCookie` call never leaves the engine uninitialised. -/
theorem FIBSCookie_state_ne_uninitialized (E : Env) (s : Monster) (L : String) :
    (FIBSCookie E s L).2.state ≠ .uninitialized_state_cookies := by
  have h := FIBSCookie_next_state E s L
  intro hu
  cases hs : s.state <;> rw [hs] at h <;> simp only [hu] at h <;> simp at h

/-- When compilation succeeds, `ResetFIBSCookieMonster` always ends in the login state. -/
theorem Reset_state (E : Env) (hE : Compiles E) (s : Monster) :
    (ResetFIBSCookieMonster E s).state = .login_state_cookies := by
  unfold ResetFIBSCookieMonster
  split
  · rw [PrepareBatches_of_compiles E hE]
  · rfl

/-- When compilation succeeds, a reachable uninitialised engine holds no batch. -/
theorem reachable_uninitialized (E : Env) (hE : Compiles E) (s : Monster)
    (hr : Reachable E s) (hs : s.state = .uninitialized_state_cookies) :
    s = Monster.initial := by
  induction hr with
  | initial => rfl
  | cookie t message _ _ => exact absurd hs (FIBSCookie_state_ne_uninitialized E t message)
  | reset t _ _ =>
    rw [Reset_state E hE t] at hs
    cases hs
  | release t _ ih =>
    unfold ReleaseFIBSCookieMonster at hs ⊢
    split
    · rename_i hu
      exact ih hu
    · rfl

/-- Searching the entries linked before the first compile failure. -/
theorem loop_batch_search_addDoughs (E : Env) (tbl : List (Msg × String)) (msg : String)
    (d : Int) :
    loop_batch_search (addDoughs E tbl).1 msg d
      = match firstHitWith E.regcomp tbl msg with
        | some m => E.val m
        | none => d := by
  induction tbl with
  | nil => rfl
  | cons a as ih =>
    obtain ⟨m, re⟩ := a
    cases hr : E.regcomp re with
    | none => simp [addDoughs, AddCookieDough, firstHitWith, hr, loop_batch_search]
    | some r =>
      have : (addDoughs E ((m, re) :: as)).1 = ⟨r, E.val m⟩ :: (addDoughs E as).1 := by
        simp [addDoughs, AddCookieDough, hr]
      rw [this, loop_batch_search_cons, ih]
      by_cases hx : regexec r msg = true
      · simp [firstHitWith, hr, hx]
      · simp [firstHitWith, hr, hx]

/-- The number of entries linked before the first compile failure. -/
theorem addDoughs_length (E : Env) (tbl : List (Msg × String)) :
    (addDoughs E tbl).1.length = (tbl.takeWhile (fun d => (E.regcomp d.2).isSome)).length := by
  induction tbl with
  | nil => rfl
  | cons a as ih =>
    obtain ⟨m, re⟩ := a
    cases hr : E.regcomp re with
    | none => simp [addDoughs, AddCookieDough, hr, List.takeWhile]
    | some r => simp [addDoughs, AddCookieDough, hr, List.takeWhile, ih]

theorem login_state_cookies_fst (E : Env) (s : Monster) (L : String) :
    (login_state_cookies E s L).1 = loop_batch_search s.LoginBatch L (E.val FIBS_PreLogin) := by
  rw [login_state_cookies_eq]
  split <;> rfl

theorem login_state_cookies_LoginBatch (E : Env) (s : Monster) (L : String) :
    (login_state_cookies E s L).2.LoginBatch = s.LoginBatch := by
  rw [login_state_cookies_eq]
  split <;> rfl

theorem motd_state_cookies_fst (E : Env) (s : Monster) (L : String) :
    (motd_state_cookies E s L).1 = loop_batch_search s.MOTDBatch L (E.val FIBS_MOTD) := by
  rw [motd_state_cookies_eq]
  split <;> rfl

/-- The login batch after `PrepareBatches` when the three tables before it compile. -/
theorem PrepareBatches_LoginBatch (E : Env) (s : Monster)
    (ha : (addDoughs E AlphaBatchDough).2 = true)
    (hn : (addDoughs E NumericBatchDough).2 = true)
    (ht : (addDoughs E StarsBatchDough).2 = true) :
    (PrepareBatches E s).LoginBatch = (addDoughs E LoginBatchDough).1 := by
  unfold PrepareBatches
  simp only [ha, hn, ht]
  cases hl : (addDoughs E LoginBatchDough).2 with
  | false => simp
  | true =>
    cases hm : (addDoughs E MOTDBatchDough).2 with
    | false => simp
    | true => simp

/-- `PrepareBatches` leaves `state` alone when a pattern fails to compile. -/
theorem PrepareBatches_state_of_failure (E : Env) (s : Monster) (h : ¬ Compiles E) :
    (PrepareBatches E s).state = s.state := by
  unfold Compiles at h
  unfold PrepareBatches
  cases ha : (addDoughs E AlphaBatchDough).2 <;>
  cases hn : (addDoughs E NumericBatchDough).2 <;>
  cases ht : (addDoughs E StarsBatchDough).2 <;>
  cases hl : (addDoughs E LoginBatchDough).2 <;>
  cases hm : (addDoughs E MOTDBatchDough).2 <;>
  simp_all

/-- Feeding lines keeps the variables reachable. -/
theorem reachable_feed (E : Env) (lines : List String) :
    ∀ s : Monster, Reachable E s → Reachable E (feed E s lines) := by
  induction lines with
  | nil => intro s hs; exact hs
  | cons l ls ih =>
    intro s hs
    exact ih _ (Reachable.cookie s l hs)

/-- A fresh engine fed `3`, `4` and the goodbye line: every batch released, logout
state. -/
theorem feed_session_goodbye (hdr : Msg → Int) :
    feed (libc hdr) Monster.initial ["3", "4", "           Goodbye."]
      = ⟨[], [], [], [], [], .logout_state_cookies⟩ := by
  simp only [feed, List.foldl, FIBSCookie_initial_3, FIBSCookie_ready_4,
    FIBSCookie_ready_goodbye]

/-- With every batch empty the login state gives `FIBS_PreLogin` to every line. -/
theorem FIBSCookie_login_empty (E : Env) (L : String) :
    (FIBSCookie E ⟨[], [], [], [], [], .login_state_cookies⟩ L).1 = E.val FIBS_PreLogin := by
  simp only [FIBSCookie, login_state_cookies_fst, loop_batch_search]

theorem regcompERE_login_prompt :
    regcompERE "^login:"
      = some (.seq .bol (.seq (.chr 'l') (.seq (.chr 'o') (.seq (.chr 'g')
          (.seq (.chr 'i') (.seq (.chr 'n') (.chr ':'))))))) := by decide

/-- Every line that begins with `login:` hits the first line of the login table. -/
theorem firstHit_login_prefix (rest : String) :
    firstHit LoginBatchDough ("login:" ++ rest) = some FIBS_LoginPrompt := by
  have hd : ("login:" ++ rest).data = 'l' :: 'o' :: 'g' :: 'i' :: 'n' :: ':' :: rest.data := by
    rw [String.data_append]
    rfl
  have hm : regexec (.seq .bol (.seq (.chr 'l') (.seq (.chr 'o') (.seq (.chr 'g')
      (.seq (.chr 'i') (.seq (.chr 'n') (.chr ':'))))))) ("login:" ++ rest) = true := by
    rw [regexec_bol, hd]
    simp [matchesAt, ends, stepChar]
  simp only [LoginBatchDough, firstHit, regcompERE_login_prompt, hm, if_true]

theorem failOn_motd_end_others :
    AlphaBatchDough.all (fun d => (failOn "^4$" d.2).isSome) = true ∧
    NumericBatchDough.all (fun d => (failOn "^4$" d.2).isSome) = true ∧
    StarsBatchDough.all (fun d => (failOn "^4$" d.2).isSome) = true ∧
    LoginBatchDough.all (fun d => (failOn "^4$" d.2).isSome) = true ∧
    MOTDBatchDough.all (fun d => (failOn "^4$" d.2).isSome) = false := by decide!

theorem failOn_motd_begin_others :
    AlphaBatchDough.all (fun d => (failOn "^3$" d.2).isSome) = true ∧
    NumericBatchDough.all (fun d => (failOn "^3$" d.2).isSome) = true ∧
    StarsBatchDough.all (fun d => (failOn "^3$" d.2).isSome) = true ∧
    LoginBatchDough.all (fun d => (failOn "^3$" d.2).isSome) = false := by decide!

theorem firstHitWith_failOn_motd_end_login :
    firstHitWith (failOn "^4$") LoginBatchDough "login:" = some FIBS_LoginPrompt := by decide

theorem firstHitWith_failOn_motd_begin_login :
    firstHitWith (failOn "^3$") LoginBatchDough "login:" = some FIBS_LoginPrompt := by decide

theorem firstHitWith_failOn_motd_begin_3 :
    firstHitWith (failOn "^3$") LoginBatchDough "3" = none := by decide

theorem takeWhile_failOn_motd_begin :
    (LoginBatchDough.takeWhile (fun d => (failOn "^3$" d.2).isSome)).length = 3 := by decide

/-- A fresh engine whose first three tables compile: the cookie of the first call is the
search of the login entries linked before the first failure. -/
theorem FIBSCookie_initial_fst (E : Env) (L : String)
    (ha : (addDoughs E AlphaBatchDough).2 = true)
    (hn : (addDoughs E NumericBatchDough).2 = true)
    (ht : (addDoughs E StarsBatchDough).2 = true) :
    (FIBSCookie E Monster.initial L).1
      = match firstHitWith E.regcomp LoginBatchDough L with
        | some m => E.val m
        | none => E.val FIBS_PreLogin := by
  have h : (FIBSCookie E Monster.initial L).1
      = loop_batch_search (PrepareBatches E Monster.initial).LoginBatch L
          (E.val FIBS_PreLogin) := by
    simp only [FIBSCookie, Monster.initial, uninitialized_state_cookies,
      login_state_cookies_fst]
  rw [h, PrepareBatches_LoginBatch E _ ha hn ht, loop_batch_search_addDoughs]

/-- Every linked entry carries the code of a line of its table. -/
theorem addDoughs_cookies (E : Env) (tbl : List (Msg × String)) :
    ∀ e ∈ (addDoughs E tbl).1, ∃ d ∈ tbl, e.cookie = E.val d.1 := by
  induction tbl with
  | nil => intro e he; simp [addDoughs] at he
  | cons a as ih =>
    obtain ⟨m, re⟩ := a
    intro e he
    cases hr : E.regcomp re with
    | none => simp [addDoughs, AddCookieDough, hr] at he
    | some r =>
      simp only [addDoughs, AddCookieDough, hr, List.mem_cons] at he
      rcases he with rfl | he
      · exact ⟨(m, re), List.mem_cons_self _ _, rfl⟩
      · obtain ⟨d, hd, hc⟩ := ih e he
        exact ⟨d, List.mem_cons_of_mem _ hd, hc⟩

/-- The search result is the default or the cookie of an entry of the batch. -/
theorem loop_batch_search_mem (batch : List CookieDough) (msg : String) (d : Int) :
    loop_batch_search batch msg d = d ∨
    ∃ e ∈ batch, loop_batch_search batch msg d = e.cookie := by
  rcases loop_batch_search_cases batch msg d with ⟨pre, e, post, h1, _, _, h4⟩ | ⟨_, h2⟩
  · right
    exact ⟨e, by rw [h1]; simp, h4⟩
  · left
    exact h2

theorem FromTables_empty (E : Env) (st : StateFn) :
    FromTables E ⟨[], [], [], [], [], st⟩ := by
  unfold FromTables
  simp

theorem FromTables_state (E : Env) (s : Monster) (st : StateFn) (h : FromTables E s) :
    FromTables E { s with state := st } := h

theorem FromTables_PrepareBatches (E : Env) (s : Monster) (h : FromTables E s) :
    FromTables E (PrepareBatches E s) := by
  obtain ⟨h1, h2, h3, h4, h5⟩ := h
  have ca := addDoughs_cookies E AlphaBatchDough
  have cn := addDoughs_cookies E NumericBatchDough
  have ct := addDoughs_cookies E StarsBatchDough
  have cl := addDoughs_cookies E LoginBatchDough
  have cm := addDoughs_cookies E MOTDBatchDough
  unfold PrepareBatches
  simp only
  split
  · exact ⟨h1, h2, ca, h4, h5⟩
  · split
    · exact ⟨h1, h2, ca, cn, h5⟩
    · split
      · exact ⟨h1, h2, ca, cn, ct⟩
      · split
        · exact ⟨cl, h2, ca, cn, ct⟩
        · split
          · exact ⟨cl, cm, ca, cn, ct⟩
          · exact ⟨cl, cm, ca, cn, ct⟩

theorem FromTables_Release (E : Env) (s : Monster) (h : FromTables E s) :
    FromTables E (ReleaseFIBSCookieMonster s) := by
  unfold ReleaseFIBSCookieMonster
  split
  · exact h
  · exact FromTables_empty E _

theorem FromTables_Reset (E : Env) (s : Monster) (h : FromTables E s) :
    FromTables E (ResetFIBSCookieMonster E s) := by
  unfold ResetFIBSCookieMonster
  split
  · exact FromTables_PrepareBatches E s h
  · exact h

theorem FromTables_login (E : Env) (s : Monster) (L : String) (h : FromTables E s) :
    FromTables E (login_state_cookies E s L).2 := by
  rw [login_state_cookies_eq]
  split
  · exact h
  · exact h

theorem FromTables_FIBSCookie (E : Env) (s : Monster) (L : String) (h : FromTables E s) :
    FromTables E (FIBSCookie E s L).2 := by
  cases hs : s.state with
  | uninitialized_state_cookies =>
    simp only [FIBSCookie, hs, uninitialized_state_cookies]
    exact FromTables_login E _ L (FromTables_PrepareBatches E s h)
  | login_state_cookies =>
    simp only [FIBSCookie, hs]
    exact FromTables_login E s L h
  | motd_state_cookies =>
    simp only [FIBSCookie, hs]
    rw [motd_state_cookies_eq]
    split
    · exact h
    · exact h
  | run_state_cookies =>
    simp only [FIBSCookie, hs]
    cases hL : L.data with
    | nil =>
      rw [run_state_cookies_empty E s L hL]
      exact h
    | cons ch cs =>
      obtain ⟨c, hc⟩ := run_state_cookies_shape E s L ch cs hL
      rw [hc]
      split
      · exact FromTables_Release E s h
      · exact h
  | logout_state_cookies =>
    simp only [FIBSCookie, hs, logout_state_cookies]
    exact h

/-- In every reachable value of the variables the batches carry table codes only. -/
theorem reachable_FromTables (E : Env) (s : Monster) (hr : Reachable E s) :
    FromTables E s := by
  induction hr with
  | initial => exact FromTables_empty E _
  | cookie t message _ ih => exact FromTables_FIBSCookie E t message ih
  | reset t _ ih => exact FromTables_Reset E t ih
  | release t _ ih => exact FromTables_Release E t ih

/-- The cookie `run_state_cookies` returns: `FIBS_Empty` or the search of one of the
three run-state batches. -/
theorem run_state_cookies_fst (E : Env) (s : Monster) (L : String) :
    (run_state_cookies E s L).1 = E.val FIBS_Empty ∨
    (run_state_cookies E s L).1 = loop_batch_search s.NumericBatch L (E.val FIBS_Unknown) ∨
    (run_state_cookies E s L).1 = loop_batch_search s.StarsBatch L (E.val FIBS_Unknown) ∨
    (run_state_cookies E s L).1 = loop_batch_search s.AlphaBatch L (E.val FIBS_Unknown) := by
  cases hL : L.data with
  | nil =>
    left
    rw [run_state_cookies_empty E s L hL]
  | cons ch cs =>
    right
    by_cases hd : ch.isDigit = true
    · left
      rw [run_state_cookies_numeric E s L ch cs hL hd]
      split <;> rfl
    · by_cases hstar : ch = '*'
      · right; left
        subst hstar
        rw [run_state_cookies_stars E s L cs hL]
        split <;> rfl
      · right; right
        rw [run_state_cookies_alpha E s L ch cs hL (by simpa using hd) hstar]
        split <;> rfl

/-- With the C library compiler and a numbering that keeps the `FIBS_` codes apart from
the CLIP codes, the reachable values of the variables are six: the initial one, all
tables built in the login, MOTD or run state, every batch released in the logout state,
and every batch released in the login state (reached by `ResetFIBSCookieMonster` after a
goodbye). -/
theorem reachable_shape (hdr : Msg → Int) (hc : ClipFree hdr) (s : Monster)
    (hr : Reachable (libc hdr) s) :
    s = Monster.initial ∨ s = Monster.ready hdr .login_state_cookies ∨
    s = Monster.ready hdr .motd_state_cookies ∨ s = Monster.ready hdr .run_state_cookies ∨
    s = ⟨[], [], [], [], [], .logout_state_cookies⟩ ∨
    s = ⟨[], [], [], [], [], .login_state_cookies⟩ := by
  have hlogin : ∀ L : String,
      (login_state_cookies (libc hdr) (Monster.ready hdr .login_state_cookies) L).2
        = Monster.ready hdr .login_state_cookies ∨
      (login_state_cookies (libc hdr) (Monster.ready hdr .login_state_cookies) L).2
        = Monster.ready hdr .motd_state_cookies := by
    intro L
    rw [login_state_cookies_eq]
    split
    · right; rfl
    · left; rfl
  induction hr with
  | initial => left; rfl
  | cookie t message _ ih =>
    rcases ih with h | h | h | h | h | h <;> subst h
    · rw [FIBSCookie_uninitialized hdr Monster.initial rfl]
      rcases hlogin message with h | h
      · right; left; exact h
      · right; right; left; exact h
    · have : FIBSCookie (libc hdr) (Monster.ready hdr .login_state_cookies) message
          = login_state_cookies (libc hdr) (Monster.ready hdr .login_state_cookies) message :=
        rfl
      rw [this]
      rcases hlogin message with h | h
      · right; left; exact h
      · right; right; left; exact h
    · have : FIBSCookie (libc hdr) (Monster.ready hdr .motd_state_cookies) message
          = motd_state_cookies (libc hdr) (Monster.ready hdr .motd_state_cookies) message :=
        rfl
      rw [this, motd_state_cookies_eq]
      split
      · right; right; right; left; rfl
      · right; right; left; rfl
    · have : FIBSCookie (libc hdr) (Monster.ready hdr .run_state_cookies) message
          = run_state_cookies (libc hdr) (Monster.ready hdr .run_state_cookies) message :=
        rfl
      rw [this]
      cases hL : message.data with
      | nil =>
        rw [run_state_cookies_empty _ _ _ hL]
        right; right; right; left; rfl
      | cons ch cs =>
        obtain ⟨c, hcc⟩ := run_state_cookies_shape (libc hdr)
          (Monster.ready hdr .run_state_cookies) message ch cs hL
        rw [hcc]
        split
        · right; right; right; right; left
          simp [ReleaseFIBSCookieMonster, Monster.ready]
        · right; right; right; left; rfl
    · right; right; right; right; left
      rfl
    · right; right; right; right; right
      have : FIBSCookie (libc hdr) ⟨[], [], [], [], [], .login_state_cookies⟩ message
          = login_state_cookies (libc hdr) ⟨[], [], [], [], [], .login_state_cookies⟩ message :=
        rfl
      rw [this, login_state_cookies_eq]
      have hp : ¬ loop_batch_search [] message ((libc hdr).val FIBS_PreLogin)
          = (libc hdr).val CLIP_MOTD_BEGIN := by
        have := hc FIBS_PreLogin
        have hv : (libc hdr).val CLIP_MOTD_BEGIN = 3 := rfl
        have hd : (libc hdr).val FIBS_PreLogin = hdr FIBS_PreLogin := rfl
        rw [loop_batch_search_nil, hv, hd]
        omega
      rw [if_neg hp]
  | reset t _ ih =>
    rcases ih with h | h | h | h | h | h <;> subst h
    · right; left
      simp [ResetFIBSCookieMonster, Monster.initial, PrepareBatches_libc]
    · right; left; rfl
    · right; left; rfl
    · right; left; rfl
    · right; right; right; right; right; rfl
    · right; right; right; right; right; rfl
  | release t _ ih =>
    rcases ih with h | h | h | h | h | h <;> subst h <;> left <;> rfl

/-- A match found at a position makes `matchesAt` true. -/
theorem matchesAt_of_mem (r : Regex) (p q : Pos) (h : q ∈ ends r p) : matchesAt r p = true := by
  unfold matchesAt
  cases hq : ends r p with
  | nil => rw [hq] at h; cases h
  | cons a as => rfl

theorem mem_ends_seq (r t : Regex) (p q u : Pos) (h1 : q ∈ ends r p) (h2 : u ∈ ends t q) :
    u ∈ ends (.seq r t) p := by
  simp only [ends, List.mem_flatMap]
  exact ⟨q, h1, h2⟩

theorem mem_ends_chr (c : Char) (b : Bool) (l : List Char) :
    (false, l) ∈ ends (.chr c) (b, c :: l) := by
  simp [ends, stepChar]

/-- Zero or more iterations of a one-character atom can consume a run of characters
that the atom accepts. -/
theorem mem_starEnds_run (ok : Char → Bool) (name rest : List Char)
    (hall : ∀ c ∈ name, ok c = true) :
    ∀ (n : Nat) (b : Bool), name.length ≤ n →
      ∃ b2, (b2, rest) ∈ starEnds (stepChar ok) n (b, name ++ rest) := by
  induction name with
  | nil =>
    intro n b _
    refine ⟨b, ?_⟩
    cases n with
    | zero => simp [starEnds]
    | succ m => simp [starEnds]
  | cons c cs ih =>
    intro n b hn
    cases n with
    | zero => simp at hn
    | succ m =>
      have hc : ok c = true := hall c (List.mem_cons_self _ _)
      obtain ⟨b2, h2⟩ := ih (fun x hx => hall x (List.mem_cons_of_mem _ hx)) m false
        (by simpa using hn)
      refine ⟨b2, ?_⟩
      simp only [starEnds, List.cons_append, stepChar, hc, if_true, List.mem_cons]
      right
      simp only [List.mem_flatMap]
      refine ⟨(false, cs ++ rest), ?_, h2⟩
      simp

/-- One or more iterations of a bracket expression can consume a non-empty run of
characters of the bracket expression. -/
theorem mem_ends_plus_set (neg : Bool) (items : List (Char × Char)) (name rest : List Char)
    (hne : name ≠ []) (hall : ∀ c ∈ name, (neg != inRanges items c) = true) (b : Bool) :
    ∃ b2, (b2, rest) ∈ ends (.plus (.set neg items)) (b, name ++ rest) := by
  cases name with
  | nil => exact absurd rfl hne
  | cons c cs =>
    have hc := hall c (List.mem_cons_self _ _)
    obtain ⟨b2, h2⟩ := mem_starEnds_run (fun d => neg != inRanges items d) cs rest
      (fun x hx => hall x (List.mem_cons_of_mem _ hx)) (cs ++ rest).length false (by simp)
    refine ⟨b2, ?_⟩
    simp only [ends, List.mem_flatMap]
    refine ⟨(false, cs ++ rest), ?_, ?_⟩
    · simp [stepChar, hc]
    · exact h2

/-- The positions at which a non-empty literal can end: after the literal when the
remaining characters begin with it, nowhere otherwise. -/
theorem ends_literal (cs : List Char) (hne : cs ≠ []) :
    ∀ (b : Bool) (l : List Char),
      ends (mkSeq (cs.map Regex.chr)) (b, l)
        = if cs.isPrefixOf l then [(false, l.drop cs.length)] else [] := by
  induction cs with
  | nil => exact absurd rfl hne
  | cons c cs ih =>
    intro b l
    cases cs with
    | nil =>
      cases l with
      | nil => simp [mkSeq, ends, stepChar, List.isPrefixOf]
      | cons x xs =>
        by_cases hx : x = c
        · simp [mkSeq, ends, stepChar, List.isPrefixOf, hx]
        · have hx2 : ¬ c = x := fun h => hx h.symm
          simp [mkSeq, ends, stepChar, List.isPrefixOf, hx, hx2]
    | cons d ds =>
      have ih2 := ih (by simp)
      cases l with
      | nil => simp [mkSeq, ends, stepChar, List.isPrefixOf]
      | cons x xs =>
        by_cases hx : x = c
        · subst hx
          simp only [List.map_cons, mkSeq, ends, stepChar, decide_True, if_true,
            List.flatMap_cons, List.flatMap_nil, List.append_nil]
          have := ih2 false xs
          simp only [List.map_cons] at this
          rw [this]
          simp [List.isPrefixOf]
        · have hx2 : ¬ c = x := fun h => hx h.symm
          simp [mkSeq, ends, stepChar, List.isPrefixOf, hx, hx2]

/-- A pattern `^literal` matches exactly the messages that begin with the literal. -/
theorem regexec_bol_literal (cs : List Char) (hne : cs ≠ []) (msg : String) :
    regexec (.seq .bol (mkSeq (cs.map Regex.chr))) msg = cs.isPrefixOf msg.data := by
  rw [regexec_bol]
  unfold matchesAt
  rw [ends_literal cs hne]
  generalize cs.isPrefixOf msg.data = t
  cases t <;> rfl

theorem sampleHeader_value (m : Msg) :
    Msg.value sampleHeader m
      = if m.toCtorIdx < 20 then (m.toCtorIdx : Int) + 1 else 21 + (m.toCtorIdx : Int) := by
  cases m <;> rfl

theorem sampleHeader_distinct : DistinctCodes sampleHeader := by
  intro a b h
  rw [sampleHeader_value, sampleHeader_value] at h
  have hidx : a.toCtorIdx = b.toCtorIdx := by
    split at h <;> split at h <;> omega
  have ha := Msg.ofNat_toCtorIdx a
  have hb := Msg.ofNat_toCtorIdx b
  rw [hidx] at ha
  rw [← ha, hb]

/-- The cookie of the run state on a non-empty line is the search of the batch its first
character selects. -/
theorem run_state_cookies_fst_select (E : Env) (s : Monster) (L : String) (ch : Char)
    (cs : List Char) (hL : L.data = ch :: cs) :
    (run_state_cookies E s L).1
      = loop_batch_search
          (if ch.isDigit then s.NumericBatch else if ch = '*' then s.StarsBatch
           else s.AlphaBatch) L (E.val FIBS_Unknown) := by
  by_cases hd : ch.isDigit = true
  · rw [run_state_cookies_numeric E s L ch cs hL hd, if_pos hd]
    split <;> rfl
  · by_cases hstar : ch = '*'
    · subst hstar
      rw [run_state_cookies_stars E s L cs hL, if_neg hd, if_pos rfl]
      split <;> rfl
    · rw [run_state_cookies_alpha E s L ch cs hL (by simpa using hd) hstar, if_neg hd,
        if_neg hstar]
      split <;> rfl

/-- On a non-empty line the run state leaves the variables alone unless the cookie is
`FIBS_Goodbye` or `FIBS_Timeout`. -/
theorem run_state_cookies_snd_of_ne (E : Env) (s : Monster) (L : String)
    (h1 : (run_state_cookies E s L).1 ≠ E.val FIBS_Goodbye)
    (h2 : (run_state_cookies E s L).1 ≠ E.val FIBS_Timeout) :
    (run_state_cookies E s L).2 = s := by
  cases hL : L.data with
  | nil => rw [run_state_cookies_empty E s L hL]
  | cons ch cs =>
    obtain ⟨c, hc⟩ := run_state_cookies_shape E s L ch cs hL
    rw [hc] at h1 h2 ⊢
    by_cases hg : c = E.val FIBS_Goodbye ∨ c = E.val FIBS_Timeout
    · rw [if_pos hg] at h1 h2
      rcases hg with hg | hg
      · exact absurd hg h1
      · exact absurd hg h2
    · rw [if_neg hg]

/-- A miss means that no compiled line of the table matches. -/
theorem firstHit_none (tbl : List (Msg × String)) (msg : String)
    (h : firstHit tbl msg = none) :
    ∀ d ∈ tbl, ∀ r, regcompERE d.2 = some r → regexec r msg = false := by
  induction tbl with
  | nil => intro d hd; cases hd
  | cons a as ih =>
    obtain ⟨m1, re⟩ := a
    intro d hd r hr
    cases hc : regcompERE re with
    | none =>
      simp only [firstHit, hc] at h
      rcases List.mem_cons.mp hd with rfl | hd
      · rw [hc] at hr; cases hr
      · exact ih h d hd r hr
    | some r1 =>
      simp only [firstHit, hc] at h
      by_cases hx : regexec r1 msg = true
      · simp [hx] at h
      · simp only [hx] at h
        rcases List.mem_cons.mp hd with rfl | hd
        · rw [hc] at hr
          cases hr
          simpa using hx
        · exact ih h d hd r hr

/-- The first hit of two tables in sequence. -/
theorem firstHit_append (a b : List (Msg × String)) (msg : String) :
    firstHit (a ++ b) msg
      = match firstHit a msg with
        | some m => some m
        | none => firstHit b msg := by
  induction a with
  | nil => rfl
  | cons x xs ih =>
    obtain ⟨m1, re⟩ := x
    cases hc : regcompERE re with
    | none =>
      simp only [List.cons_append, firstHit, hc]
      exact ih
    | some r1 =>
      cases hx : regexec r1 msg with
      | true => simp only [List.cons_append, firstHit, hc, hx, if_true]
      | false =>
        simp only [List.cons_append, firstHit, hc, hx, Bool.false_eq_true, if_false]
        exact ih

/-- A hit carries the identifier of a line of the table. -/
theorem firstHit_mem (tbl : List (Msg × String)) (msg : String) (m : Msg)
    (h : firstHit tbl msg = some m) : ∃ re, (m, re) ∈ tbl := by
  obtain ⟨re, _, hmem, _, _⟩ := firstHit_some tbl msg m h
  exact ⟨re, hmem⟩

theorem firstHit_cons_hit (m : Msg) (re : String) (rest : List (Msg × String)) (msg : String)
    (r : Regex) (h : regcompERE re = some r) (hx : regexec r msg = true) :
    firstHit ((m, re) :: rest) msg = some m := by
  simp only [firstHit, h, hx, if_true]

theorem firstHit_cons_miss (m : Msg) (re : String) (rest : List (Msg × String))
    (msg : String) (r : Regex) (h : regcompERE re = some r) (hx : regexec r msg = false) :
    firstHit ((m, re) :: rest) msg = firstHit rest msg := by
  simp only [firstHit, h, hx, Bool.false_eq_true, if_false]

theorem data_ne_nil_of_ne_empty (a : String) (h : a ≠ "") : a.data ≠ [] := by
  intro hd
  exact h (String.ext hd)

theorem regcompERE_welcome :
    regcompERE "^1 [a-zA-Z_<>]+ [0-9]+ "
      = some (.seq .bol (.seq (.chr '1') (.seq (.chr ' ')
          (.seq (.plus (.set false [('a', 'z'), ('A', 'Z'), ('_', '_'), ('<', '<'), ('>', '>')]))
            (.seq (.chr ' ') (.seq (.plus (.set false [('0', '9')])) (.chr ' '))))))) := by
  decide

/-- The welcome pattern matches every line `1 <name> <digits> <rest>`. -/
theorem regexec_welcome (name digits rest : List Char) (msg : String)
    (hmsg : msg.data = '1' :: ' ' :: (name ++ ' ' :: (digits ++ ' ' :: rest)))
    (hn : name ≠ []) (hnc : ∀ c ∈ name, isNameChar c = true)
    (hd : digits ≠ []) (hdc : ∀ c ∈ digits, isDigitChar c = true) :
    regexec (.seq .bol (.seq (.chr '1') (.seq (.chr ' ')
          (.seq (.plus (.set false [('a', 'z'), ('A', 'Z'), ('_', '_'), ('<', '<'), ('>', '>')]))
            (.seq (.chr ' ') (.seq (.plus (.set false [('0', '9')])) (.chr ' '))))))) msg
      = true := by
  rw [regexec_bol, hmsg]
  obtain ⟨b1, h1⟩ := mem_ends_plus_set false
    [('a', 'z'), ('A', 'Z'), ('_', '_'), ('<', '<'), ('>', '>')] name
    (' ' :: (digits ++ ' ' :: rest)) hn
    (fun c hc => by have := hnc c hc; simpa [isNameChar] using this) false
  obtain ⟨b2, h2⟩ := mem_ends_plus_set false [('0', '9')] digits (' ' :: rest) hd
    (fun c hc => by have := hdc c hc; simpa [isDigitChar] using this) false
  refine matchesAt_of_mem _ _ (false, rest) ?_
  refine mem_ends_seq _ _ _ _ _ (mem_ends_chr '1' true _) ?_
  refine mem_ends_seq _ _ _ _ _ (mem_ends_chr ' ' false _) ?_
  refine mem_ends_seq _ _ _ _ _ h1 ?_
  refine mem_ends_seq _ _ _ _ _ (mem_ends_chr ' ' b1 _) ?_
  refine mem_ends_seq _ _ _ _ _ h2 ?_
  exact mem_ends_chr ' ' b2 _

/-- Every line `1 <name> <digits> <rest>` hits the welcome line of the login table. -/
theorem firstHit_login_welcome (name digits rest : List Char) (msg : String)
    (hmsg : msg.data = '1' :: ' ' :: (name ++ ' ' :: (digits ++ ' ' :: rest)))
    (hn : name ≠ []) (hnc : ∀ c ∈ name, isNameChar c = true)
    (hd : digits ≠ []) (hdc : ∀ c ∈ digits, isDigitChar c = true) :
    firstHit LoginBatchDough msg = some CLIP_WELCOME := by
  have h0 : regexec (.seq .bol (.seq (.chr 'l') (.seq (.chr 'o') (.seq (.chr 'g')
      (.seq (.chr 'i') (.seq (.chr 'n') (.chr ':'))))))) msg = false := by
    rw [regexec_bol, hmsg]
    simp [matchesAt, ends, stepChar]
  have h1 := regexec_welcome name digits rest msg hmsg hn hnc hd hdc
  unfold LoginBatchDough
  rw [firstHit_cons_miss _ _ _ _ _ regcompERE_login_prompt h0]
  exact firstHit_cons_hit _ _ _ _ _ regcompERE_welcome h1

theorem regcompERE_username :
    regcompERE "^\\*\\* User"
      = some (.seq .bol (mkSeq ("** User".data.map Regex.chr))) := by decide

/-- Every line that begins with `** User` hits the first line of the stars table. -/
theorem firstHit_stars_user (rest : String) :
    firstHit StarsBatchDough ("** User" ++ rest) = some FIBS_Username := by
  have hm : regexec (.seq .bol (mkSeq ("** User".data.map Regex.chr))) ("** User" ++ rest)
      = true := by
    rw [regexec_bol_literal _ (by decide), String.data_append]
    simp
  have hs : StarsBatchDough = (FIBS_Username, "^\\*\\* User") :: StarsBatchDough.tail := rfl
  rw [hs]
  exact firstHit_cons_hit _ _ _ _ _ regcompERE_username hm

/-- The cookie of the run state, on a line that begins with `*`, with the stars batch
built. -/
theorem run_state_cookies_stars_fst (hdr : Msg → Int) (s : Monster) (L : String)
    (cs : List Char) (hL : L.data = '*' :: cs)
    (hb : s.StarsBatch = bakedBatch hdr StarsBatchDough) :
    (run_state_cookies (libc hdr) s L).1
      = match firstHit StarsBatchDough L with
        | some m => (libc hdr).val m
        | none => (libc hdr).val FIBS_Unknown := by
  rw [run_state_cookies_fst_select _ s L '*' cs hL]
  have hd : ('*' : Char).isDigit = false := by decide
  simp only [hd, Bool.false_eq_true, if_false, if_true, hb]
  exact loop_batch_search_baked hdr StarsBatchDough L _

/-- The cookie of the run state, on a line that begins with a digit, with the numeric
batch built. -/
theorem run_state_cookies_numeric_fst (hdr : Msg → Int) (s : Monster) (L : String)
    (ch : Char) (cs : List Char) (hL : L.data = ch :: cs) (hd : ch.isDigit = true)
    (hb : s.NumericBatch = bakedBatch hdr NumericBatchDough) :
    (run_state_cookies (libc hdr) s L).1
      = match firstHit NumericBatchDough L with
        | some m => (libc hdr).val m
        | none => (libc hdr).val FIBS_Unknown := by
  rw [run_state_cookies_fst_select _ s L ch cs hL]
  simp only [hd, if_true, hb]
  exact loop_batch_search_baked hdr NumericBatchDough L _

/-- The cookie of the run state, on a line that begins with neither a digit nor `*`,
with the alpha batch built. -/
theorem run_state_cookies_alpha_fst (hdr : Msg → Int) (s : Monster) (L : String)
    (ch : Char) (cs : List Char) (hL : L.data = ch :: cs) (hd : ch.isDigit = false)
    (hstar : ch ≠ '*') (hb : s.AlphaBatch = bakedBatch hdr AlphaBatchDough) :
    (run_state_cookies (libc hdr) s L).1
      = match firstHit AlphaBatchDough L with
        | some m => (libc hdr).val m
        | none => (libc hdr).val FIBS_Unknown := by
  rw [run_state_cookies_fst_select _ s L ch cs hL]
  simp only [hd, hstar, Bool.false_eq_true, if_false, hb]
  exact loop_batch_search_baked hdr AlphaBatchDough L _

theorem numeric_stars_no_goodbye :
    (NumericBatchDough ++ StarsBatchDough).all
      (fun d => d.1 != FIBS_Goodbye && d.1 != FIBS_Timeout) = true := by decide!

theorem alpha_no_username :
    AlphaBatchDough.all (fun d => d.1 != FIBS_Username) = true := by decide!

theorem regcompERE_no_one :
    regcompERE "^\\*\\* There is no one called"
      = some (.seq .bol (mkSeq ("** There is no one called".data.map Regex.chr))) := by
  decide

theorem regcompERE_no_user :
    regcompERE "^\\*\\* There is no one called "
      = some (.seq .bol (mkSeq ("** There is no one called ".data.map Regex.chr))) := by
  decide

/-- Every message the `FIBS_NoUser` pattern matches is matched by the `FIBS_NoOne`
pattern, which is the same pattern without the final space. -/
theorem no_user_implies_no_one (msg : String)
    (h : regexec (.seq .bol (mkSeq ("** There is no one called ".data.map Regex.chr))) msg
      = true) :
    regexec (.seq .bol (mkSeq ("** There is no one called".data.map Regex.chr))) msg
      = true := by
  rw [regexec_bol_literal _ (by decide)] at h ⊢
  rw [List.isPrefixOf_iff_prefix] at h ⊢
  have hp : "** There is no one called".data <+: "** There is no one called ".data :=
    ⟨[' '], rfl⟩
  exact hp.trans h

theorem stars_split :
    StarsBatchDough = StarsBatchDough.take 16 ++ StarsBatchDough.drop 16 :=
  (List.take_append_drop 16 StarsBatchDough).symm

theorem stars_head_facts :
    (FIBS_NoOne, "^\\*\\* There is no one called") ∈ StarsBatchDough.take 16 ∧
    (StarsBatchDough.take 16).all (fun d => d.1 != FIBS_NoUser) = true ∧
    (StarsBatchDough.drop 16).all
      (fun d => d.1 != FIBS_NoUser || d.2 == "^\\*\\* There is no one called ") = true := by
  decide

theorem alpha_numeric_no_user :
    (AlphaBatchDough ++ NumericBatchDough).all (fun d => d.1 != FIBS_NoUser) = true := by
  decide!

/-- No line reaches the `FIBS_NoUser` line of the stars table: the `FIBS_NoOne` line
before it matches whatever it matches. -/
theorem firstHit_stars_ne_no_user (msg : String) :
    firstHit StarsBatchDough msg ≠ some FIBS_NoUser := by
  obtain ⟨hmem, hhead, htail⟩ := stars_head_facts
  rw [stars_split, firstHit_append]
  cases hA : firstHit (StarsBatchDough.take 16) msg with
  | some m =>
    intro h
    simp only [Option.some.injEq] at h
    subst h
    obtain ⟨re, hre⟩ := firstHit_mem _ _ _ hA
    have := List.all_eq_true.mp hhead _ hre
    simp at this
  | none =>
    simp only
    intro hB
    have hnone := firstHit_none _ _ hA _ hmem _ regcompERE_no_one
    obtain ⟨re, r, hre, hr, hx⟩ := firstHit_some _ _ _ hB
    have := List.all_eq_true.mp htail _ hre
    simp only [bne_self_eq_false, Bool.false_or, beq_iff_eq] at this
    subst this
    rw [regcompERE_no_user] at hr
    cases hr
    rw [no_user_implies_no_one msg hx] at hnone
    cases hnone

theorem firstHit_stars_no_one_fergy :
    firstHit StarsBatchDough "** There is no one called fergy" = some FIBS_NoOne := by
  decide!

theorem firstHit_alpha_time_utc :
    firstHit AlphaBatchDough "Time (UTC)  average min max" = none ∧
    firstHit AlphaBatchDough "Time UTC  average min max" = some FIBS_Average := by
  decide!

theorem firstHit_numeric_shouts :
    firstHit NumericBatchDough "13 bytes hello" = some FIBS_Stat ∧
    firstHit NumericBatchDough "13 marv hello" = some CLIP_SHOUTS := by
  decide!

theorem firstHit_alpha_board_samples :
    firstHit AlphaBatchDough "board:a:b:\\" = some FIBS_Board ∧
    firstHit AlphaBatchDough "board:a:b:1:-2" = some FIBS_Board ∧
    firstHit AlphaBatchDough "board:a:b:x" = some FIBS_BAD_Board := by
  decide!

theorem regcompERE_bad_board :
    regcompERE "^board:" = some (.seq .bol (mkSeq ("board:".data.map Regex.chr))) := by
  decide

theorem regcompERE_board_isSome :
    (regcompERE "^board:[a-zA-Z_<>]+:[a-zA-Z_<>]+:[0-9:\\-]+$").isSome = true := by decide

/-- Every line that begins with `board:` hits one of the first two lines of the alpha
table. -/
theorem firstHit_alpha_board (rest : String) :
    firstHit AlphaBatchDough ("board:" ++ rest) = some FIBS_Board ∨
    firstHit AlphaBatchDough ("board:" ++ rest) = some FIBS_BAD_Board := by
  have hm : regexec (.seq .bol (mkSeq ("board:".data.map Regex.chr))) ("board:" ++ rest)
      = true := by
    rw [regexec_bol_literal _ (by decide), String.data_append]
    simp
  have hs : AlphaBatchDough
      = (FIBS_Board, "^board:[a-zA-Z_<>]+:[a-zA-Z_<>]+:[0-9:\\-]+$") ::
        (FIBS_BAD_Board, "^board:") :: AlphaBatchDough.drop 2 := rfl
  obtain ⟨r1, hr1⟩ := Option.isSome_iff_exists.mp regcompERE_board_isSome
  rw [hs]
  cases hx : regexec r1 ("board:" ++ rest) with
  | true =>
    left
    exact firstHit_cons_hit _ _ _ _ _ hr1 hx
  | false =>
    right
    rw [firstHit_cons_miss _ _ _ _ _ hr1 hx]
    exact firstHit_cons_hit _ _ _ _ _ regcompERE_bad_board hm

/-- When pattern compilation succeeds, from every reachable value of the variables
`ReleaseFIBSCookieMonster` leaves all five batches empty and the state uninitialised, and
releasing twice gives the same variables as releasing once. -/
theorem Release_of_compiles (E : Env) (hE : Compiles E) (s : Monster)
    (hr : Reachable E s) :
    ReleaseFIBSCookieMonster s = ⟨[], [], [], [], [], .uninitialized_state_cookies⟩ ∧
    ReleaseFIBSCookieMonster (ReleaseFIBSCookieMonster s) = ReleaseFIBSCookieMonster s := by
  have h1 : ReleaseFIBSCookieMonster s = ⟨[], [], [], [], [], .uninitialized_state_cookies⟩ := by
    by_cases hu : s.state = .uninitialized_state_cookies
    · have := reachable_uninitialized E hE s hr hu
      subst this
      rfl
    · simp [ReleaseFIBSCookieMonster, hu]
  refine ⟨h1, ?_⟩
  rw [h1]
  rfl

/-- On a fresh engine, and in the login state with the login batch built, every line
that begins with `login:` gets `FIBS_LoginPrompt`, and the state afterwards is
`login_state_cookies`. -/
theorem FIBSCookie_login_prompt_built (hdr : Msg → Int) (hc : ClipFree hdr) (rest : String) :
    FIBSCookie (libc hdr) Monster.initial ("login:" ++ rest)
      = (hdr FIBS_LoginPrompt, Monster.ready hdr .login_state_cookies) ∧
    ∀ s : Monster, s.state = .login_state_cookies →
      s.LoginBatch = bakedBatch hdr LoginBatchDough →
      FIBSCookie (libc hdr) s ("login:" ++ rest) = (hdr FIBS_LoginPrompt, s) := by
  have hp : hdr FIBS_LoginPrompt ≠ 3 := by
    have := hc FIBS_LoginPrompt
    omega
  have key : ∀ s : Monster, s.LoginBatch = bakedBatch hdr LoginBatchDough →
      login_state_cookies (libc hdr) s ("login:" ++ rest) = (hdr FIBS_LoginPrompt, s) := by
    intro s hb
    have h : loop_batch_search s.LoginBatch ("login:" ++ rest) ((libc hdr).val FIBS_PreLogin)
        = hdr FIBS_LoginPrompt := by
      rw [hb, loop_batch_search_baked, firstHit_login_prefix]
      rfl
    have hv : (libc hdr).val CLIP_MOTD_BEGIN = 3 := rfl
    rw [login_state_cookies_eq, hv, h, if_neg hp]
  refine ⟨?_, ?_⟩
  · rw [FIBSCookie_uninitialized hdr Monster.initial rfl]
    exact key _ rfl
  · intro s hs hb
    have : FIBSCookie (libc hdr) s ("login:" ++ rest)
        = login_state_cookies (libc hdr) s ("login:" ++ rest) := by
      simp only [FIBSCookie, hs]
    rw [this]
    exact key s hb

/-- In the login state with the login batch built, every line made of `1 `, a non-empty
name of characters of `[a-zA-Z_<>]`, a space, one or more decimal digits, a space and any
remainder gets `CLIP_WELCOME` (= 1) and leaves the variables unchanged. -/
theorem FIBSCookie_welcome_built (hdr : Msg → Int) (s : Monster)
    (hs : s.state = .login_state_cookies)
    (hb : s.LoginBatch = bakedBatch hdr LoginBatchDough) (name digits rest : String)
    (hn : name ≠ "") (hnc : ∀ c ∈ name.data, isNameChar c = true)
    (hd : digits ≠ "") (hdc : ∀ c ∈ digits.data, isDigitChar c = true) :
    (libc hdr).val CLIP_WELCOME = 1 ∧
    FIBSCookie (libc hdr) s ("1 " ++ name ++ " " ++ digits ++ " " ++ rest)
      = ((libc hdr).val CLIP_WELCOME, s) ∧
    (FIBSCookie (libc hdr) s ("1 " ++ name ++ " " ++ digits ++ " " ++ rest)).2.state
      = .login_state_cookies := by
  have hdat : ("1 " ++ name ++ " " ++ digits ++ " " ++ rest).data
      = '1' :: ' ' :: (name.data ++ ' ' :: (digits.data ++ ' ' :: rest.data)) := by
    have h1 : "1 ".data = ['1', ' '] := rfl
    have h2 : " ".data = [' '] := rfl
    simp only [String.data_append, h1, h2, List.append_assoc, List.cons_append,
      List.nil_append]
  have hhit := firstHit_login_welcome name.data digits.data rest.data _ hdat
    (data_ne_nil_of_ne_empty name hn) hnc (data_ne_nil_of_ne_empty digits hd) hdc
  have hsearch : loop_batch_search s.LoginBatch
      ("1 " ++ name ++ " " ++ digits ++ " " ++ rest) ((libc hdr).val FIBS_PreLogin) = 1 := by
    rw [hb, loop_batch_search_baked, hhit]
    rfl
  have hv : (libc hdr).val CLIP_MOTD_BEGIN = 3 := rfl
  have hw : (libc hdr).val CLIP_WELCOME = 1 := rfl
  have hf : FIBSCookie (libc hdr) s ("1 " ++ name ++ " " ++ digits ++ " " ++ rest)
      = ((libc hdr).val CLIP_WELCOME, s) := by
    simp only [FIBSCookie, hs]
    rw [login_state_cookies_eq, hv, hsearch, if_neg (by decide), hw]
  rw [hf]
  exact ⟨hw, rfl, hs⟩

/-- A fresh engine that said goodbye and was then reset: every batch released, login
state. -/
theorem Reset_after_goodbye (hdr : Msg → Int) :
    ResetFIBSCookieMonster (libc hdr)
        (feed (libc hdr) Monster.initial ["3", "4", "           Goodbye."])
      = ⟨[], [], [], [], [], .login_state_cookies⟩ := by
  rw [feed_session_goodbye]
  simp [ResetFIBSCookieMonster]

theorem firstHit_login_welcome_marv :
    firstHit LoginBatchDough "1 marv 1009 1 1" = some CLIP_WELCOME := by decide

theorem takeWhile_failOn_motd_end :
    (AlphaBatchDough.takeWhile (fun d => (failOn "^4$" d.2).isSome)).length = 163 ∧
    (NumericBatchDough.takeWhile (fun d => (failOn "^4$" d.2).isSome)).length = 26 ∧
    (StarsBatchDough.takeWhile (fun d => (failOn "^4$" d.2).isSome)).length = 82 ∧
    (LoginBatchDough.takeWhile (fun d => (failOn "^4$" d.2).isSome)).length = 5 ∧
    (MOTDBatchDough.takeWhile (fun d => (failOn "^4$" d.2).isSome)).length = 0 := by
  decide!

/-- `PrepareBatches` when only the MOTD table fails to compile: the four tables before it
are linked, and so are the MOTD entries before the failure; `state` is untouched. -/
theorem PrepareBatches_motd_failure (E : Env) (s : Monster)
    (ha : (addDoughs E AlphaBatchDough).2 = true)
    (hn : (addDoughs E NumericBatchDough).2 = true)
    (ht : (addDoughs E StarsBatchDough).2 = true)
    (hl : (addDoughs E LoginBatchDough).2 = true)
    (hm : (addDoughs E MOTDBatchDough).2 = false) :
    PrepareBatches E s
      = { LoginBatch := (addDoughs E LoginBatchDough).1
          MOTDBatch := (addDoughs E MOTDBatchDough).1
          AlphaBatch := (addDoughs E AlphaBatchDough).1
          NumericBatch := (addDoughs E NumericBatchDough).1
          StarsBatch := (addDoughs E StarsBatchDough).1
          state := s.state } := by
  unfold PrepareBatches
  simp [ha, hn, ht, hl, hm]

/-! ## The properties -/

/-- C1: for every batch, line and default code, `loop_batch_search` returns the cookie of
the earliest entry (in list order) whose pattern matches the line, and the default code
when no entry matches; in particular on the empty batch. -/
theorem C1_search_first_match (batch : List CookieDough) (msg : String) (d : Int) :
    ((∃ pre e post, batch = pre ++ e :: post ∧ (∀ x ∈ pre, regexec x.regex msg = false) ∧
        regexec e.regex msg = true ∧ loop_batch_search batch msg d = e.cookie) ∨
     ((∀ x ∈ batch, regexec x.regex msg = false) ∧ loop_batch_search batch msg d = d)) ∧
    loop_batch_search [] msg d = d :=
  ⟨loop_batch_search_cases batch msg d, rfl⟩

/-- C2: when both patterns match the line, searching `[P1, P2]` gives the code of `P1`
and searching `[P2, P1]` gives the code of `P2`; with different codes the two results
differ. -/
theorem C2_order_sensitivity (p1 p2 : CookieDough) (msg : String) (d : Int)
    (h1 : regexec p1.regex msg = true) (h2 : regexec p2.regex msg = true) :
    loop_batch_search [p1, p2] msg d = p1.cookie ∧
    loop_batch_search [p2, p1] msg d = p2.cookie ∧
    (p1.cookie ≠ p2.cookie →
      loop_batch_search [p1, p2] msg d ≠ loop_batch_search [p2, p1] msg d) := by
  have e1 : loop_batch_search [p1, p2] msg d = p1.cookie := by simp [loop_batch_search, h1]
  have e2 : loop_batch_search [p2, p1] msg d = p2.cookie := by simp [loop_batch_search, h2]
  exact ⟨e1, e2, fun h => by rw [e1, e2]; exact h⟩

/-- Witness for C2 with two patterns of the alphabetic table, `^[XO]: wins` before
`^[XO]:`, on the line `X: wins`. -/
theorem C2_order_sensitivity_witness :
    regexec ((regcompERE "^[XO]: wins").getD .empty) "X: wins" = true ∧
    regexec ((regcompERE "^[XO]:").getD .empty) "X: wins" = true ∧
    (loop_batch_search
        [⟨(regcompERE "^[XO]: wins").getD .empty, 1⟩, ⟨(regcompERE "^[XO]:").getD .empty, 2⟩]
        "X: wins" 0 = 1 ∧
     loop_batch_search
        [⟨(regcompERE "^[XO]:").getD .empty, 2⟩, ⟨(regcompERE "^[XO]: wins").getD .empty, 1⟩]
        "X: wins" 0 = 2 ∧
     ((1 : Int) ≠ 2 →
      loop_batch_search
        [⟨(regcompERE "^[XO]: wins").getD .empty, 1⟩, ⟨(regcompERE "^[XO]:").getD .empty, 2⟩]
        "X: wins" 0 ≠
      loop_batch_search
        [⟨(regcompERE "^[XO]:").getD .empty, 2⟩, ⟨(regcompERE "^[XO]: wins").getD .empty, 1⟩]
        "X: wins" 0)) :=
  ⟨by decide, by decide,
   C2_order_sensitivity ⟨(regcompERE "^[XO]: wins").getD .empty, 1⟩
     ⟨(regcompERE "^[XO]:").getD .empty, 2⟩ "X: wins" 0 (by decide) (by decide)⟩

/-- C3: in the login state with the login batch built, `FIBSCookie` returns
`CLIP_MOTD_BEGIN` (= 3) exactly when the line is `3`, and `state` becomes
`motd_state_cookies` exactly then; on every other line the variables are unchanged (the
state stays `login_state_cookies`), and a line that no entry matches gets
`FIBS_PreLogin`. -/
theorem C3_prelogin_motd_begin (hdr : Msg → Int) (hc : ClipFree hdr) (s : Monster)
    (hs : s.state = .login_state_cookies)
    (hb : s.LoginBatch = bakedBatch hdr LoginBatchDough) (L : String) :
    (libc hdr).val CLIP_MOTD_BEGIN = 3 ∧
    ((FIBSCookie (libc hdr) s L).1 = (libc hdr).val CLIP_MOTD_BEGIN ↔ L = "3") ∧
    ((FIBSCookie (libc hdr) s L).2.state = .motd_state_cookies ↔ L = "3") ∧
    (L ≠ "3" → (FIBSCookie (libc hdr) s L).2 = s) ∧
    ((∀ e ∈ s.LoginBatch, regexec e.regex L = false) →
      (FIBSCookie (libc hdr) s L).1 = hdr FIBS_PreLogin) := by
  have key := login_search_eq_motd_begin hdr hc L
  have hv : (libc hdr).val CLIP_MOTD_BEGIN = 3 := rfl
  have hf : FIBSCookie (libc hdr) s L = login_state_cookies (libc hdr) s L := by
    simp [FIBSCookie, hs]
  rw [hf]
  unfold login_state_cookies
  rw [hb, hv]
  have hlast : (∀ e ∈ bakedBatch hdr LoginBatchDough, regexec e.regex L = false) →
      loop_batch_search (bakedBatch hdr LoginBatchDough) L ((libc hdr).val FIBS_PreLogin)
        = hdr FIBS_PreLogin := by
    intro hall
    rcases loop_batch_search_cases (bakedBatch hdr LoginBatchDough) L
        ((libc hdr).val FIBS_PreLogin) with ⟨pre, e, post, h1, _, h3, _⟩ | ⟨_, h2⟩
    · have he : e ∈ bakedBatch hdr LoginBatchDough := by rw [h1]; simp
      rw [hall e he] at h3
      cases h3
    · exact h2
  by_cases h : L = "3"
  · have hk := key.mpr h
    rw [if_pos hk]
    exact ⟨rfl, ⟨fun _ => h, fun _ => hk⟩, ⟨fun _ => h, fun _ => rfl⟩,
      fun hne => absurd h hne, hlast⟩
  · have hk : ¬ loop_batch_search (bakedBatch hdr LoginBatchDough) L
        ((libc hdr).val FIBS_PreLogin) = 3 := fun hk => h (key.mp hk)
    rw [if_neg hk]
    refine ⟨rfl, ⟨fun hh => absurd hh hk, fun hh => absurd hh h⟩, ⟨?_, fun hh => absurd hh h⟩,
      fun _ => rfl, hlast⟩
    intro hh
    rw [hs] at hh
    cases hh

/-- Witness for C3: the built engine in the login state, sample numbering, on the line
`1 marv 1009 1 1`. -/
theorem C3_prelogin_motd_begin_witness :
    ClipFree sampleHeader ∧
    (Monster.ready sampleHeader .login_state_cookies).state = .login_state_cookies ∧
    ((libc sampleHeader).val CLIP_MOTD_BEGIN = 3 ∧
     ((FIBSCookie (libc sampleHeader) (Monster.ready sampleHeader .login_state_cookies)
        "1 marv 1009 1 1").1 = (libc sampleHeader).val CLIP_MOTD_BEGIN
        ↔ "1 marv 1009 1 1" = "3") ∧
     ((FIBSCookie (libc sampleHeader) (Monster.ready sampleHeader .login_state_cookies)
        "1 marv 1009 1 1").2.state = .motd_state_cookies ↔ "1 marv 1009 1 1" = "3") ∧
     ("1 marv 1009 1 1" ≠ "3" →
       (FIBSCookie (libc sampleHeader) (Monster.ready sampleHeader .login_state_cookies)
        "1 marv 1009 1 1").2 = Monster.ready sampleHeader .login_state_cookies) ∧
     ((∀ e ∈ (Monster.ready sampleHeader .login_state_cookies).LoginBatch,
          regexec e.regex "1 marv 1009 1 1" = false) →
       (FIBSCookie (libc sampleHeader) (Monster.ready sampleHeader .login_state_cookies)
        "1 marv 1009 1 1").1 = sampleHeader FIBS_PreLogin)) :=
  ⟨sampleHeader_clipFree, rfl,
   C3_prelogin_motd_begin sampleHeader sampleHeader_clipFree
     (Monster.ready sampleHeader .login_state_cookies) rfl rfl "1 marv 1009 1 1"⟩

/-- C5: in the run state, for a line with first character `ch`, the cookie `FIBSCookie`
returns is the search of one batch with default `FIBS_Unknown`: the numeric batch when
`ch` is a digit, the stars batch when `ch` is `*`, the alpha batch otherwise; the cookie
does not depend on the other batches. -/
theorem C5_run_selects_one_batch (E : Env) (s : Monster) (hs : s.state = .run_state_cookies)
    (L : String) (ch : Char) (cs : List Char) (hL : L.data = ch :: cs) :
    (FIBSCookie E s L).1
      = loop_batch_search
          (if ch.isDigit then s.NumericBatch else if ch = '*' then s.StarsBatch
           else s.AlphaBatch) L (E.val FIBS_Unknown) ∧
    ∀ t : Monster, t.state = .run_state_cookies →
      (if ch.isDigit then t.NumericBatch else if ch = '*' then t.StarsBatch else t.AlphaBatch)
        = (if ch.isDigit then s.NumericBatch else if ch = '*' then s.StarsBatch
           else s.AlphaBatch) →
      (FIBSCookie E t L).1 = (FIBSCookie E s L).1 := by
  have key : ∀ t : Monster, t.state = .run_state_cookies →
      (FIBSCookie E t L).1
        = loop_batch_search
            (if ch.isDigit then t.NumericBatch else if ch = '*' then t.StarsBatch
             else t.AlphaBatch) L (E.val FIBS_Unknown) := by
    intro t ht
    have h1 : ∀ (c : Int) (p : Prop) [Decidable p] (x y : Monster),
        (if p then (c, x) else (c, y)).1 = c := by
      intro c p _ x y
      split <;> rfl
    simp only [FIBSCookie, ht, run_state_cookies, hL, h1]
    by_cases hd : ch.isDigit = true
    · simp only [hd, if_true]
    · by_cases hstar : ch = '*'
      · simp only [hd, hstar, if_true]
        rfl
      · simp only [hd, hstar, if_false]
        rfl
  refine ⟨key s hs, ?_⟩
  intro t ht heq
  rw [key t ht, key s hs, heq]

/-- Witness for C5: the built engine in the run state on the line `** User fergy is
barred.`, whose first character is `*`. -/
theorem C5_run_selects_one_batch_witness :
    (Monster.ready sampleHeader .run_state_cookies).state = .run_state_cookies ∧
    "** User fergy is barred.".data = '*' :: "* User fergy is barred.".data ∧
    (FIBSCookie (libc sampleHeader) (Monster.ready sampleHeader .run_state_cookies)
        "** User fergy is barred.").1
      = loop_batch_search
          (if ('*' : Char).isDigit then
             (Monster.ready sampleHeader .run_state_cookies).NumericBatch
           else if ('*' : Char) = '*' then
             (Monster.ready sampleHeader .run_state_cookies).StarsBatch
           else (Monster.ready sampleHeader .run_state_cookies).AlphaBatch)
          "** User fergy is barred." ((libc sampleHeader).val FIBS_Unknown) :=
  ⟨rfl, rfl,
   (C5_run_selects_one_batch (libc sampleHeader)
     (Monster.ready sampleHeader .run_state_cookies) rfl "** User fergy is barred." '*'
     "* User fergy is barred.".data rfl).1⟩

/-- C6: in the run state, when `FIBSCookie` returns `FIBS_Goodbye` or `FIBS_Timeout` all
five batches are empty afterwards and `state` is `logout_state_cookies`; when it returns
any other cookie the variables are unchanged (still the run state). The numbering is
assumed to keep `FIBS_Empty` apart from the two codes. -/
theorem C6_goodbye_releases (E : Env) (s : Monster) (hs : s.state = .run_state_cookies)
    (he1 : E.val FIBS_Empty ≠ E.val FIBS_Goodbye)
    (he2 : E.val FIBS_Empty ≠ E.val FIBS_Timeout) (L : String) :
    (((FIBSCookie E s L).1 = E.val FIBS_Goodbye ∨ (FIBSCookie E s L).1 = E.val FIBS_Timeout) →
      (FIBSCookie E s L).2 = ⟨[], [], [], [], [], .logout_state_cookies⟩) ∧
    (¬ ((FIBSCookie E s L).1 = E.val FIBS_Goodbye ∨
        (FIBSCookie E s L).1 = E.val FIBS_Timeout) →
      (FIBSCookie E s L).2 = s ∧ (FIBSCookie E s L).2.state = .run_state_cookies) := by
  have hf : FIBSCookie E s L = run_state_cookies E s L := by simp [FIBSCookie, hs]
  rw [hf]
  cases hL : L.data with
  | nil =>
    have hr : run_state_cookies E s L = (E.val FIBS_Empty, s) := by
      simp only [run_state_cookies, hL]
    rw [hr]
    refine ⟨?_, fun _ => ⟨rfl, hs⟩⟩
    rintro (h | h)
    · exact absurd h he1
    · exact absurd h he2
  | cons ch cs =>
    obtain ⟨c, hr⟩ : ∃ c : Int, run_state_cookies E s L
        = if c = E.val FIBS_Goodbye ∨ c = E.val FIBS_Timeout then
            (c, { ReleaseFIBSCookieMonster s with state := .logout_state_cookies })
          else (c, s) := by
      simp only [run_state_cookies, hL]
      exact ⟨_, rfl⟩
    rw [hr]
    by_cases hc : c = E.val FIBS_Goodbye ∨ c = E.val FIBS_Timeout
    · rw [if_pos hc]
      refine ⟨fun _ => ?_, fun hn => absurd hc hn⟩
      simp [ReleaseFIBSCookieMonster, hs]
    · rw [if_neg hc]
      exact ⟨fun h => absurd h hc, fun _ => ⟨rfl, hs⟩⟩

/-- Witness for C6: the built engine in the run state, sample numbering, on the goodbye
line. -/
theorem C6_goodbye_releases_witness :
    (Monster.ready sampleHeader .run_state_cookies).state = .run_state_cookies ∧
    (libc sampleHeader).val FIBS_Empty ≠ (libc sampleHeader).val FIBS_Goodbye ∧
    (libc sampleHeader).val FIBS_Empty ≠ (libc sampleHeader).val FIBS_Timeout ∧
    ((((FIBSCookie (libc sampleHeader) (Monster.ready sampleHeader .run_state_cookies)
          "           Goodbye.").1 = (libc sampleHeader).val FIBS_Goodbye ∨
       (FIBSCookie (libc sampleHeader) (Monster.ready sampleHeader .run_state_cookies)
          "           Goodbye.").1 = (libc sampleHeader).val FIBS_Timeout) →
      (FIBSCookie (libc sampleHeader) (Monster.ready sampleHeader .run_state_cookies)
          "           Goodbye.").2 = ⟨[], [], [], [], [], .logout_state_cookies⟩) ∧
     (¬ ((FIBSCookie (libc sampleHeader) (Monster.ready sampleHeader .run_state_cookies)
          "           Goodbye.").1 = (libc sampleHeader).val FIBS_Goodbye ∨
        (FIBSCookie (libc sampleHeader) (Monster.ready sampleHeader .run_state_cookies)
          "           Goodbye.").1 = (libc sampleHeader).val FIBS_Timeout) →
      (FIBSCookie (libc sampleHeader) (Monster.ready sampleHeader .run_state_cookies)
          "           Goodbye.").2 = Monster.ready sampleHeader .run_state_cookies ∧
      (FIBSCookie (libc sampleHeader) (Monster.ready sampleHeader .run_state_cookies)
          "           Goodbye.").2.state = .run_state_cookies)) :=
  ⟨rfl, by decide, by decide,
   C6_goodbye_releases (libc sampleHeader) (Monster.ready sampleHeader .run_state_cookies) rfl
     (by decide) (by decide) "           Goodbye."⟩

/-- C7: in the logout state `FIBSCookie` returns `FIBS_PostGoodbye` and leaves the
variables unchanged, so any sequence of lines leaves them unchanged and the state stays
`logout_state_cookies`. -/
theorem C7_logout_absorbing (E : Env) (s : Monster) (hs : s.state = .logout_state_cookies)
    (L : String) :
    FIBSCookie E s L = (E.val FIBS_PostGoodbye, s) ∧
    ∀ lines : List String,
      feed E s lines = s ∧ (feed E s lines).state = .logout_state_cookies := by
  have one : ∀ M : String, FIBSCookie E s M = (E.val FIBS_PostGoodbye, s) := by
    intro M
    simp [FIBSCookie, hs, logout_state_cookies]
  refine ⟨one L, ?_⟩
  intro lines
  have hfeed : feed E s lines = s := by
    induction lines with
    | nil => rfl
    | cons l ls ih =>
      have : feed E s (l :: ls) = feed E (FIBSCookie E s l).2 ls := rfl
      rw [this, one l]
      exact ih
  exact ⟨hfeed, by rw [hfeed]; exact hs⟩

/-- Witness for C7: the engine after a goodbye (batches released, logout state). -/
theorem C7_logout_absorbing_witness :
    (⟨[], [], [], [], [], .logout_state_cookies⟩ : Monster).state = .logout_state_cookies ∧
    (FIBSCookie (libc sampleHeader) ⟨[], [], [], [], [], .logout_state_cookies⟩ "anything"
        = ((libc sampleHeader).val FIBS_PostGoodbye,
           ⟨[], [], [], [], [], .logout_state_cookies⟩) ∧
     ∀ lines : List String,
       feed (libc sampleHeader) ⟨[], [], [], [], [], .logout_state_cookies⟩ lines
          = ⟨[], [], [], [], [], .logout_state_cookies⟩ ∧
       (feed (libc sampleHeader) ⟨[], [], [], [], [], .logout_state_cookies⟩ lines).state
          = .logout_state_cookies) :=
  ⟨rfl, C7_logout_absorbing (libc sampleHeader) ⟨[], [], [], [], [], .logout_state_cookies⟩
     rfl "anything"⟩

/-- C8 (the code at the failing input): a fresh engine fed `3`, `4` and the goodbye line
ends in the logout state with every batch released; `ResetFIBSCookieMonster` then only
sets the login state and leaves every batch empty, so every later line, `login:` and `3`
included, gets `FIBS_PreLogin`; a fresh engine gives `FIBS_LoginPrompt` for `login:` and
`CLIP_MOTD_BEGIN` for `3`. -/
theorem C8_reset_after_goodbye_keeps_tables_empty (hdr : Msg → Int) :
    feed (libc hdr) Monster.initial ["3", "4", "           Goodbye."]
      = ⟨[], [], [], [], [], .logout_state_cookies⟩ ∧
    ResetFIBSCookieMonster (libc hdr)
        (feed (libc hdr) Monster.initial ["3", "4", "           Goodbye."])
      = ⟨[], [], [], [], [], .login_state_cookies⟩ ∧
    (∀ L : String,
      (FIBSCookie (libc hdr)
        (ResetFIBSCookieMonster (libc hdr)
          (feed (libc hdr) Monster.initial ["3", "4", "           Goodbye."])) L).1
        = hdr FIBS_PreLogin) ∧
    (FIBSCookie (libc hdr) Monster.initial "login:").1 = hdr FIBS_LoginPrompt ∧
    (FIBSCookie (libc hdr) Monster.initial "3").1 = 3 := by
  have hfeed : feed (libc hdr) Monster.initial ["3", "4", "           Goodbye."]
      = ⟨[], [], [], [], [], .logout_state_cookies⟩ := by
    simp only [feed, List.foldl, FIBSCookie_initial_3, FIBSCookie_ready_4,
      FIBSCookie_ready_goodbye]
  have hreset : ResetFIBSCookieMonster (libc hdr) ⟨[], [], [], [], [], .logout_state_cookies⟩
      = ⟨[], [], [], [], [], .login_state_cookies⟩ := by
    simp [ResetFIBSCookieMonster]
  rw [hfeed, hreset]
  refine ⟨rfl, rfl, ?_, ?_, ?_⟩
  · intro L
    have h1 : ∀ (c : Int) (p : Prop) [Decidable p] (x y : Monster),
        (if p then (c, x) else (c, y)).1 = c := by
      intro c p _ x y
      split <;> rfl
    simp only [FIBSCookie, login_state_cookies, loop_batch_search, h1]
    rfl
  · rw [FIBSCookie_uninitialized hdr Monster.initial rfl]
    have h1 : ∀ (c : Int) (p : Prop) [Decidable p] (x y : Monster),
        (if p then (c, x) else (c, y)).1 = c := by
      intro c p _ x y
      split <;> rfl
    simp only [login_state_cookies, h1]
    show loop_batch_search (bakedBatch hdr LoginBatchDough) "login:" _ = _
    rw [loop_batch_search_baked, firstHit_login_prompt]
    rfl
  · rw [FIBSCookie_initial_3]

/-- C9: on an uninitialised engine (in particular a never-used one) `FIBSCookie` returns
the same cookie and leaves the same variables as on the engine that has all five tables
built and is in the login state: the tables are built and the triggering line is
classified by `login_state_cookies`. -/
theorem C9_first_use_classifies_line (hdr : Msg → Int) (s : Monster)
    (hs : s.state = .uninitialized_state_cookies) (L : String) :
    FIBSCookie (libc hdr) s L
      = FIBSCookie (libc hdr) (Monster.ready hdr .login_state_cookies) L ∧
    FIBSCookie (libc hdr) s L
      = login_state_cookies (libc hdr) (Monster.ready hdr .login_state_cookies) L ∧
    PrepareBatches (libc hdr) s = Monster.ready hdr .login_state_cookies :=
  ⟨by rw [FIBSCookie_uninitialized hdr s hs]; rfl, FIBSCookie_uninitialized hdr s hs L,
   PrepareBatches_libc hdr s⟩

/-- Witness for C9: the never-used engine on the line `login:`. -/
theorem C9_first_use_classifies_line_witness :
    Monster.initial.state = .uninitialized_state_cookies ∧
    (FIBSCookie (libc sampleHeader) Monster.initial "login:"
      = FIBSCookie (libc sampleHeader) (Monster.ready sampleHeader .login_state_cookies)
          "login:" ∧
     FIBSCookie (libc sampleHeader) Monster.initial "login:"
      = login_state_cookies (libc sampleHeader)
          (Monster.ready sampleHeader .login_state_cookies) "login:" ∧
     PrepareBatches (libc sampleHeader) Monster.initial
      = Monster.ready sampleHeader .login_state_cookies) :=
  ⟨rfl, C9_first_use_classifies_line sampleHeader Monster.initial rfl "login:"⟩

/-- C10: for every value of the variables and every line, `ReleaseFIBSCookieMonster`
followed by `FIBSCookie` returns the same cookie and leaves the same variables as
`FIBSCookie` on the never-used engine. -/
theorem C10_release_then_classify (hdr : Msg → Int) (s : Monster) (L : String) :
    FIBSCookie (libc hdr) (ReleaseFIBSCookieMonster s) L
      = FIBSCookie (libc hdr) Monster.initial L := by
  have hu : (ReleaseFIBSCookieMonster s).state = .uninitialized_state_cookies := by
    unfold ReleaseFIBSCookieMonster
    split
    · assumption
    · rfl
  rw [FIBSCookie_uninitialized hdr _ hu, FIBSCookie_uninitialized hdr Monster.initial rfl]

/-- C11 (the code at the failing input): with a compiler that fails on the pattern `^4$`,
`ResetFIBSCookieMonster` on a fresh engine leaves the state uninitialised with the alpha,
numeric, stars and login batches linked (163, 26, 82 and 5 entries).
`ReleaseFIBSCookieMonster` then returns at its guard and changes nothing, so the batches
are not empty afterwards. Releasing twice equals releasing once for every value of the
variables, and when every pattern compiles every reachable value is released to five
empty batches in the uninitialised state. -/
theorem C11_release_after_failed_reset_frees_nothing (hdr : Msg → Int) :
    Reachable ⟨hdr, failOn "^4$"⟩
      (ResetFIBSCookieMonster ⟨hdr, failOn "^4$"⟩ Monster.initial) ∧
    (ResetFIBSCookieMonster ⟨hdr, failOn "^4$"⟩ Monster.initial).state
      = .uninitialized_state_cookies ∧
    ReleaseFIBSCookieMonster (ResetFIBSCookieMonster ⟨hdr, failOn "^4$"⟩ Monster.initial)
      = ResetFIBSCookieMonster ⟨hdr, failOn "^4$"⟩ Monster.initial ∧
    (ReleaseFIBSCookieMonster
      (ResetFIBSCookieMonster ⟨hdr, failOn "^4$"⟩ Monster.initial)).AlphaBatch.length = 163 ∧
    (ReleaseFIBSCookieMonster
      (ResetFIBSCookieMonster ⟨hdr, failOn "^4$"⟩ Monster.initial)).NumericBatch.length = 26 ∧
    (ReleaseFIBSCookieMonster
      (ResetFIBSCookieMonster ⟨hdr, failOn "^4$"⟩ Monster.initial)).StarsBatch.length = 82 ∧
    (ReleaseFIBSCookieMonster
      (ResetFIBSCookieMonster ⟨hdr, failOn "^4$"⟩ Monster.initial)).LoginBatch.length = 5 ∧
    ReleaseFIBSCookieMonster (ResetFIBSCookieMonster ⟨hdr, failOn "^4$"⟩ Monster.initial)
      ≠ ⟨[], [], [], [], [], .uninitialized_state_cookies⟩ ∧
    (∀ s : Monster,
      ReleaseFIBSCookieMonster (ReleaseFIBSCookieMonster s) = ReleaseFIBSCookieMonster s) ∧
    (∀ (E : Env) (s : Monster), Compiles E → Reachable E s →
      ReleaseFIBSCookieMonster s = ⟨[], [], [], [], [], .uninitialized_state_cookies⟩) := by
  obtain ⟨ha, hn, ht, hl, hm⟩ := failOn_motd_end_others
  obtain ⟨la, ln, lt, ll, _⟩ := takeWhile_failOn_motd_end
  have hr : (Env.mk hdr (failOn "^4$")).regcomp = failOn "^4$" := rfl
  have hreset : ResetFIBSCookieMonster ⟨hdr, failOn "^4$"⟩ Monster.initial
      = { LoginBatch := (addDoughs ⟨hdr, failOn "^4$"⟩ LoginBatchDough).1
          MOTDBatch := (addDoughs ⟨hdr, failOn "^4$"⟩ MOTDBatchDough).1
          AlphaBatch := (addDoughs ⟨hdr, failOn "^4$"⟩ AlphaBatchDough).1
          NumericBatch := (addDoughs ⟨hdr, failOn "^4$"⟩ NumericBatchDough).1
          StarsBatch := (addDoughs ⟨hdr, failOn "^4$"⟩ StarsBatchDough).1
          state := .uninitialized_state_cookies } := by
    have : ResetFIBSCookieMonster ⟨hdr, failOn "^4$"⟩ Monster.initial
        = PrepareBatches ⟨hdr, failOn "^4$"⟩ Monster.initial := by
      simp [ResetFIBSCookieMonster, Monster.initial]
    rw [this, PrepareBatches_motd_failure _ _ (by rw [addDoughs_snd]; exact ha)
      (by rw [addDoughs_snd]; exact hn) (by rw [addDoughs_snd]; exact ht)
      (by rw [addDoughs_snd]; exact hl) (by rw [addDoughs_snd]; exact hm)]
    rfl
  have hrel : ReleaseFIBSCookieMonster
      (ResetFIBSCookieMonster ⟨hdr, failOn "^4$"⟩ Monster.initial)
        = ResetFIBSCookieMonster ⟨hdr, failOn "^4$"⟩ Monster.initial := by
    rw [hreset]
    simp [ReleaseFIBSCookieMonster]
  have hlen : (ResetFIBSCookieMonster ⟨hdr, failOn "^4$"⟩ Monster.initial).AlphaBatch.length
      = 163 := by
    rw [hreset]
    show (addDoughs ⟨hdr, failOn "^4$"⟩ AlphaBatchDough).1.length = 163
    rw [addDoughs_length, hr]
    exact la
  refine ⟨Reachable.reset _ Reachable.initial, by rw [hreset], hrel, ?_, ?_, ?_, ?_, ?_, ?_,
    fun E s hE hs => (Release_of_compiles E hE s hs).1⟩
  · rw [hrel]
    exact hlen
  · rw [hrel, hreset]
    show (addDoughs ⟨hdr, failOn "^4$"⟩ NumericBatchDough).1.length = 26
    rw [addDoughs_length, hr]
    exact ln
  · rw [hrel, hreset]
    show (addDoughs ⟨hdr, failOn "^4$"⟩ StarsBatchDough).1.length = 82
    rw [addDoughs_length, hr]
    exact lt
  · rw [hrel, hreset]
    show (addDoughs ⟨hdr, failOn "^4$"⟩ LoginBatchDough).1.length = 5
    rw [addDoughs_length, hr]
    exact ll
  · rw [hrel]
    intro h
    rw [h] at hlen
    simp at hlen
  · intro s
    by_cases hu : s.state = .uninitialized_state_cookies
    · simp [ReleaseFIBSCookieMonster, hu]
    · simp [ReleaseFIBSCookieMonster, hu]

/-- C12: when pattern compilation succeeds, from any value of the variables
`ResetFIBSCookieMonster` leaves the login state, and so does a second call; in the
login, MOTD and run states it changes nothing but `state` (the batches are not
rebuilt). -/
theorem C12_reset_to_prelogin (E : Env) (hE : Compiles E) (s : Monster) :
    (ResetFIBSCookieMonster E s).state = .login_state_cookies ∧
    (ResetFIBSCookieMonster E (ResetFIBSCookieMonster E s)).state = .login_state_cookies ∧
    ((s.state = .login_state_cookies ∨ s.state = .motd_state_cookies ∨
        s.state = .run_state_cookies) →
      ResetFIBSCookieMonster E s = { s with state := .login_state_cookies } ∧
      (ResetFIBSCookieMonster E s).LoginBatch = s.LoginBatch ∧
      (ResetFIBSCookieMonster E s).MOTDBatch = s.MOTDBatch ∧
      (ResetFIBSCookieMonster E s).AlphaBatch = s.AlphaBatch ∧
      (ResetFIBSCookieMonster E s).NumericBatch = s.NumericBatch ∧
      (ResetFIBSCookieMonster E s).StarsBatch = s.StarsBatch) := by
  refine ⟨Reset_state E hE s, Reset_state E hE _, ?_⟩
  intro h
  have hu : s.state ≠ .uninitialized_state_cookies := by
    rcases h with h | h | h <;> rw [h] <;> simp
  have : ResetFIBSCookieMonster E s = { s with state := .login_state_cookies } := by
    simp [ResetFIBSCookieMonster, hu]
  rw [this]
  exact ⟨rfl, rfl, rfl, rfl, rfl, rfl⟩

/-- Witness for C12: the C library compiler and the engine with all tables built in the
MOTD state. -/
theorem C12_reset_to_prelogin_witness :
    Compiles (libc sampleHeader) ∧
    (ResetFIBSCookieMonster (libc sampleHeader)
        (Monster.ready sampleHeader .motd_state_cookies)).state = .login_state_cookies ∧
    ResetFIBSCookieMonster (libc sampleHeader) (Monster.ready sampleHeader .motd_state_cookies)
      = Monster.ready sampleHeader .login_state_cookies :=
  ⟨libc_compiles sampleHeader,
   (C12_reset_to_prelogin (libc sampleHeader) (libc_compiles sampleHeader)
     (Monster.ready sampleHeader .motd_state_cookies)).1,
   ((C12_reset_to_prelogin (libc sampleHeader) (libc_compiles sampleHeader)
     (Monster.ready sampleHeader .motd_state_cookies)).2.2 (Or.inr (Or.inl rfl))).1⟩

/-- C13: in the run state `FIBSCookie` on the empty line returns `FIBS_Empty` and leaves
the variables unchanged, whatever the batches hold. -/
theorem C13_empty_line (E : Env) (s : Monster) (hs : s.state = .run_state_cookies) :
    FIBSCookie E s "" = (E.val FIBS_Empty, s) := by
  simp only [FIBSCookie, hs]
  exact run_state_cookies_empty E s "" rfl

/-- Witness for C13: every batch holds one entry whose pattern (the empty pattern)
matches the empty line, with cookie 99; the empty line still gets `FIBS_Empty`. -/
theorem C13_empty_line_witness :
    regexec Regex.empty "" = true ∧
    loop_batch_search [⟨Regex.empty, 99⟩] "" ((libc sampleHeader).val FIBS_Unknown) = 99 ∧
    FIBSCookie (libc sampleHeader)
        ⟨[⟨Regex.empty, 99⟩], [⟨Regex.empty, 99⟩], [⟨Regex.empty, 99⟩], [⟨Regex.empty, 99⟩],
          [⟨Regex.empty, 99⟩], .run_state_cookies⟩ ""
      = ((libc sampleHeader).val FIBS_Empty,
         ⟨[⟨Regex.empty, 99⟩], [⟨Regex.empty, 99⟩], [⟨Regex.empty, 99⟩], [⟨Regex.empty, 99⟩],
          [⟨Regex.empty, 99⟩], .run_state_cookies⟩) :=
  ⟨by decide, by decide,
   C13_empty_line (libc sampleHeader)
     ⟨[⟨Regex.empty, 99⟩], [⟨Regex.empty, 99⟩], [⟨Regex.empty, 99⟩], [⟨Regex.empty, 99⟩],
       [⟨Regex.empty, 99⟩], .run_state_cookies⟩ rfl⟩

/-- C14 (the code at the failing input): two reachable values of the variables in the
same (login) state, the one after `ResetFIBSCookieMonster` on a fresh engine and the one
after `ResetFIBSCookieMonster` on an engine that has said goodbye, give different results
for the same line: `login:` gets `FIBS_LoginPrompt` in the first and `FIBS_PreLogin` in
the second, and `3` gets `CLIP_MOTD_BEGIN` (moving to the MOTD state) in the first and
`FIBS_PreLogin` in the second. -/
theorem C14_same_phase_different_result (hdr : Msg → Int) :
    Reachable (libc hdr) (ResetFIBSCookieMonster (libc hdr) Monster.initial) ∧
    Reachable (libc hdr) (ResetFIBSCookieMonster (libc hdr)
      (feed (libc hdr) Monster.initial ["3", "4", "           Goodbye."])) ∧
    (ResetFIBSCookieMonster (libc hdr) Monster.initial).state = .login_state_cookies ∧
    (ResetFIBSCookieMonster (libc hdr)
      (feed (libc hdr) Monster.initial ["3", "4", "           Goodbye."])).state
        = .login_state_cookies ∧
    (FIBSCookie (libc hdr) (ResetFIBSCookieMonster (libc hdr) Monster.initial) "login:").1
        = hdr FIBS_LoginPrompt ∧
    (FIBSCookie (libc hdr) (ResetFIBSCookieMonster (libc hdr)
      (feed (libc hdr) Monster.initial ["3", "4", "           Goodbye."])) "login:").1
        = hdr FIBS_PreLogin ∧
    FIBSCookie (libc hdr) (ResetFIBSCookieMonster (libc hdr) Monster.initial) "3"
        = (3, Monster.ready hdr .motd_state_cookies) ∧
    (FIBSCookie (libc hdr) (ResetFIBSCookieMonster (libc hdr)
      (feed (libc hdr) Monster.initial ["3", "4", "           Goodbye."])) "3").1
        = hdr FIBS_PreLogin := by
  have hA : ResetFIBSCookieMonster (libc hdr) Monster.initial
      = Monster.ready hdr .login_state_cookies := by
    simp [ResetFIBSCookieMonster, Monster.initial, PrepareBatches_libc]
  have hB : ResetFIBSCookieMonster (libc hdr)
      (feed (libc hdr) Monster.initial ["3", "4", "           Goodbye."])
        = ⟨[], [], [], [], [], .login_state_cookies⟩ := by
    rw [feed_session_goodbye]
    simp [ResetFIBSCookieMonster]
  refine ⟨Reachable.reset _ Reachable.initial,
    Reachable.reset _ (reachable_feed _ _ _ Reachable.initial), ?_, ?_, ?_, ?_, ?_, ?_⟩
  · rw [hA]; rfl
  · rw [hB]
  · rw [hA]
    have : FIBSCookie (libc hdr) (Monster.ready hdr .login_state_cookies) "login:"
        = login_state_cookies (libc hdr) (Monster.ready hdr .login_state_cookies) "login:" :=
      rfl
    rw [this, login_state_cookies_fst]
    show loop_batch_search (bakedBatch hdr LoginBatchDough) "login:" _ = _
    rw [loop_batch_search_baked, firstHit_login_prompt]
    rfl
  · rw [hB]
    exact FIBSCookie_login_empty (libc hdr) "login:"
  · rw [hA]
    have := FIBSCookie_initial_3 hdr
    rw [FIBSCookie_uninitialized hdr Monster.initial rfl] at this
    exact this
  · rw [hB]
    exact FIBSCookie_login_empty (libc hdr) "3"

/-- C15: a `FIBSCookie` call never moves the state backward and never skips a state: from
the uninitialised state it ends in the login or MOTD state, from the login state in the
login or MOTD state, from the MOTD state in the MOTD or run state, from the run state in
the run or logout state, and from the logout state in the logout state. -/
theorem C15_no_backward_step (E : Env) (s : Monster) (L : String) :
    (match s.state with
     | .uninitialized_state_cookies =>
       (FIBSCookie E s L).2.state = .login_state_cookies ∨
       (FIBSCookie E s L).2.state = .motd_state_cookies
     | .login_state_cookies =>
       (FIBSCookie E s L).2.state = .login_state_cookies ∨
       (FIBSCookie E s L).2.state = .motd_state_cookies
     | .motd_state_cookies =>
       (FIBSCookie E s L).2.state = .motd_state_cookies ∨
       (FIBSCookie E s L).2.state = .run_state_cookies
     | .run_state_cookies =>
       (FIBSCookie E s L).2.state = .run_state_cookies ∨
       (FIBSCookie E s L).2.state = .logout_state_cookies
     | .logout_state_cookies => (FIBSCookie E s L).2.state = .logout_state_cookies) ∧
    (s.state = .login_state_cookies → (FIBSCookie E s L).2.state ≠ .run_state_cookies) ∧
    (s.state = .motd_state_cookies → (FIBSCookie E s L).2.state ≠ .logout_state_cookies) := by
  have h := FIBSCookie_next_state E s L
  refine ⟨h, ?_, ?_⟩
  · intro hs hr
    rw [hs] at h
    simp only [hr] at h
    simp at h
  · intro hs hr
    rw [hs] at h
    simp only [hr] at h
    simp at h

/-- C16 (the code at the failing input): with a compiler that fails on the pattern `^4$`
the MOTD table is not built and `PrepareBatches` returns without setting `state`; the
first `FIBSCookie` call on the line `login:` still returns `FIBS_LoginPrompt`, the cookie
it returns when every pattern compiles, and leaves the login state. -/
theorem C16_compile_failure_not_reported (hdr : Msg → Int) :
    failOn "^4$" "^4$" = none ∧
    ¬ Compiles ⟨hdr, failOn "^4$"⟩ ∧
    (PrepareBatches ⟨hdr, failOn "^4$"⟩ Monster.initial).state
      = .uninitialized_state_cookies ∧
    (FIBSCookie ⟨hdr, failOn "^4$"⟩ Monster.initial "login:").1 = hdr FIBS_LoginPrompt ∧
    (FIBSCookie (libc hdr) Monster.initial "login:").1 = hdr FIBS_LoginPrompt ∧
    ((FIBSCookie ⟨hdr, failOn "^4$"⟩ Monster.initial "login:").2.state = .login_state_cookies ∨
     (FIBSCookie ⟨hdr, failOn "^4$"⟩ Monster.initial "login:").2.state
       = .motd_state_cookies) := by
  obtain ⟨ha, hn, ht, _, hm⟩ := failOn_motd_end_others
  have hnc : ¬ Compiles ⟨hdr, failOn "^4$"⟩ := by
    intro hc
    have h5 := hc.2.2.2.2
    rw [addDoughs_snd] at h5
    rw [show (Env.mk hdr (failOn "^4$")).regcomp = failOn "^4$" from rfl, hm] at h5
    cases h5
  refine ⟨by decide, hnc, ?_, ?_, ?_, ?_⟩
  · rw [PrepareBatches_state_of_failure _ _ hnc]
    rfl
  · rw [FIBSCookie_initial_fst _ _ (by rw [addDoughs_snd]; exact ha)
      (by rw [addDoughs_snd]; exact hn) (by rw [addDoughs_snd]; exact ht)]
    rw [show (Env.mk hdr (failOn "^4$")).regcomp = failOn "^4$" from rfl,
      firstHitWith_failOn_motd_end_login]
    rfl
  · rw [FIBSCookie_uninitialized hdr Monster.initial rfl, login_state_cookies_fst]
    show loop_batch_search (bakedBatch hdr LoginBatchDough) "login:" _ = _
    rw [loop_batch_search_baked, firstHit_login_prompt]
    rfl
  · have := FIBSCookie_next_state ⟨hdr, failOn "^4$"⟩ Monster.initial "login:"
    exact this

/-- C17 (the code at the failing input): with a compiler that fails on the pattern `^3$`,
the fourth of the five lines of the login table, the three entries compiled before it
stay linked in `LoginBatch`, and the first `FIBSCookie` call matches the line `login:`
against them and returns `FIBS_LoginPrompt`; the line `3` gets `FIBS_PreLogin`. -/
theorem C17_partial_batch_is_searched (hdr : Msg → Int) :
    failOn "^3$" "^3$" = none ∧
    (addDoughs ⟨hdr, failOn "^3$"⟩ LoginBatchDough).2 = false ∧
    LoginBatchDough.length = 5 ∧
    (PrepareBatches ⟨hdr, failOn "^3$"⟩ Monster.initial).LoginBatch.length = 3 ∧
    (FIBSCookie ⟨hdr, failOn "^3$"⟩ Monster.initial "login:").2.LoginBatch
      = (PrepareBatches ⟨hdr, failOn "^3$"⟩ Monster.initial).LoginBatch ∧
    (FIBSCookie ⟨hdr, failOn "^3$"⟩ Monster.initial "login:").1
      = loop_batch_search (PrepareBatches ⟨hdr, failOn "^3$"⟩ Monster.initial).LoginBatch
          "login:" (hdr FIBS_PreLogin) ∧
    (FIBSCookie ⟨hdr, failOn "^3$"⟩ Monster.initial "login:").1 = hdr FIBS_LoginPrompt ∧
    (FIBSCookie ⟨hdr, failOn "^3$"⟩ Monster.initial "3").1 = hdr FIBS_PreLogin := by
  obtain ⟨ha, hn, ht, hl⟩ := failOn_motd_begin_others
  have hr : (Env.mk hdr (failOn "^3$")).regcomp = failOn "^3$" := rfl
  have ha2 : (addDoughs ⟨hdr, failOn "^3$"⟩ AlphaBatchDough).2 = true := by
    rw [addDoughs_snd]; exact ha
  have hn2 : (addDoughs ⟨hdr, failOn "^3$"⟩ NumericBatchDough).2 = true := by
    rw [addDoughs_snd]; exact hn
  have ht2 : (addDoughs ⟨hdr, failOn "^3$"⟩ StarsBatchDough).2 = true := by
    rw [addDoughs_snd]; exact ht
  refine ⟨by decide, ?_, by decide, ?_, ?_, ?_, ?_, ?_⟩
  · rw [addDoughs_snd]; exact hl
  · rw [PrepareBatches_LoginBatch _ _ ha2 hn2 ht2, addDoughs_length, hr]
    exact takeWhile_failOn_motd_begin
  · simp only [FIBSCookie, Monster.initial, uninitialized_state_cookies,
      login_state_cookies_LoginBatch]
  · simp only [FIBSCookie, Monster.initial, uninitialized_state_cookies,
      login_state_cookies_fst]
    rfl
  · rw [FIBSCookie_initial_fst _ _ ha2 hn2 ht2, hr, firstHitWith_failOn_motd_begin_login]
    rfl
  · rw [FIBSCookie_initial_fst _ _ ha2 hn2 ht2, hr, firstHitWith_failOn_motd_begin_3]
    rfl

/-- C18: for every reachable value of the variables and every line, the cookie
`FIBSCookie` returns is one of the five handler codes (`FIBS_PreLogin`, `FIBS_MOTD`,
`FIBS_Unknown`, `FIBS_Empty`, `FIBS_PostGoodbye`) or the code of a line of one of the
five tables; in the login state it is `FIBS_PreLogin` or a code of the login table, and in
the MOTD state it is `FIBS_MOTD` or `CLIP_MOTD_END`. -/
theorem C18_codes_closed (E : Env) (s : Monster) (hr : Reachable E s) (L : String) :
    ((FIBSCookie E s L).1 = E.val FIBS_PreLogin ∨ (FIBSCookie E s L).1 = E.val FIBS_MOTD ∨
     (FIBSCookie E s L).1 = E.val FIBS_Unknown ∨ (FIBSCookie E s L).1 = E.val FIBS_Empty ∨
     (FIBSCookie E s L).1 = E.val FIBS_PostGoodbye ∨
     ∃ d ∈ AlphaBatchDough ++ NumericBatchDough ++ StarsBatchDough ++ LoginBatchDough ++
         MOTDBatchDough, (FIBSCookie E s L).1 = E.val d.1) ∧
    (s.state = .login_state_cookies →
      (FIBSCookie E s L).1 = E.val FIBS_PreLogin ∨
      ∃ d ∈ LoginBatchDough, (FIBSCookie E s L).1 = E.val d.1) ∧
    (s.state = .motd_state_cookies →
      (FIBSCookie E s L).1 = E.val FIBS_MOTD ∨
      (FIBSCookie E s L).1 = E.val CLIP_MOTD_END) := by
  have hft := reachable_FromTables E s hr
  have hlogin : ∀ t : Monster, FromTables E t →
      (login_state_cookies E t L).1 = E.val FIBS_PreLogin ∨
      ∃ d ∈ LoginBatchDough, (login_state_cookies E t L).1 = E.val d.1 := by
    intro t ht
    rw [login_state_cookies_fst]
    rcases loop_batch_search_mem t.LoginBatch L (E.val FIBS_PreLogin) with h | ⟨e, he, h⟩
    · left; exact h
    · right
      obtain ⟨d, hd, hc⟩ := ht.1 e he
      exact ⟨d, hd, by rw [h, hc]⟩
  have hmotd : (motd_state_cookies E s L).1 = E.val FIBS_MOTD ∨
      (motd_state_cookies E s L).1 = E.val CLIP_MOTD_END := by
    rw [motd_state_cookies_fst]
    rcases loop_batch_search_mem s.MOTDBatch L (E.val FIBS_MOTD) with h | ⟨e, he, h⟩
    · left; exact h
    · right
      obtain ⟨d, hd, hc⟩ := hft.2.1 e he
      simp only [MOTDBatchDough, List.mem_singleton] at hd
      subst hd
      rw [h, hc]
  refine ⟨?_, ?_, ?_⟩
  · cases hs : s.state with
    | uninitialized_state_cookies =>
      simp only [FIBSCookie, hs, uninitialized_state_cookies]
      rcases hlogin _ (FromTables_state E _ _ (FromTables_PrepareBatches E s hft))
        with h | ⟨d, hd, h⟩
      · left; exact h
      · right; right; right; right; right
        exact ⟨d, by simp [hd], h⟩
    | login_state_cookies =>
      simp only [FIBSCookie, hs]
      rcases hlogin s hft with h | ⟨d, hd, h⟩
      · left; exact h
      · right; right; right; right; right
        exact ⟨d, by simp [hd], h⟩
    | motd_state_cookies =>
      simp only [FIBSCookie, hs]
      rcases hmotd with h | h
      · right; left; exact h
      · right; right; right; right; right
        exact ⟨(CLIP_MOTD_END, "^4$"), by simp [MOTDBatchDough], h⟩
    | run_state_cookies =>
      simp only [FIBSCookie, hs]
      rcases run_state_cookies_fst E s L with h | h | h | h
      · right; right; right; left; exact h
      · rcases loop_batch_search_mem s.NumericBatch L (E.val FIBS_Unknown)
          with h2 | ⟨e, he, h2⟩
        · right; right; left; rw [h, h2]
        · right; right; right; right; right
          obtain ⟨d, hd, hc⟩ := hft.2.2.2.1 e he
          exact ⟨d, by simp [hd], by rw [h, h2, hc]⟩
      · rcases loop_batch_search_mem s.StarsBatch L (E.val FIBS_Unknown)
          with h2 | ⟨e, he, h2⟩
        · right; right; left; rw [h, h2]
        · right; right; right; right; right
          obtain ⟨d, hd, hc⟩ := hft.2.2.2.2 e he
          exact ⟨d, by simp [hd], by rw [h, h2, hc]⟩
      · rcases loop_batch_search_mem s.AlphaBatch L (E.val FIBS_Unknown)
          with h2 | ⟨e, he, h2⟩
        · right; right; left; rw [h, h2]
        · right; right; right; right; right
          obtain ⟨d, hd, hc⟩ := hft.2.2.1 e he
          exact ⟨d, by simp [hd], by rw [h, h2, hc]⟩
    | logout_state_cookies =>
      simp only [FIBSCookie, hs, logout_state_cookies]
      right; right; right; right; left; trivial
  · intro hs
    simp only [FIBSCookie, hs]
    exact hlogin s hft
  · intro hs
    simp only [FIBSCookie, hs]
    exact hmotd

/-- Witness for C18: the engine a fresh one reaches on the line `3` (MOTD state, tables
built), classifying the line `4`. -/
theorem C18_codes_closed_witness :
    Reachable (libc sampleHeader) (FIBSCookie (libc sampleHeader) Monster.initial "3").2 ∧
    ((FIBSCookie (libc sampleHeader) Monster.initial "3").2.state = .motd_state_cookies →
      (FIBSCookie (libc sampleHeader)
          (FIBSCookie (libc sampleHeader) Monster.initial "3").2 "4").1
        = (libc sampleHeader).val FIBS_MOTD ∨
      (FIBSCookie (libc sampleHeader)
          (FIBSCookie (libc sampleHeader) Monster.initial "3").2 "4").1
        = (libc sampleHeader).val CLIP_MOTD_END) :=
  ⟨Reachable.cookie _ "3" Reachable.initial,
   (C18_codes_closed (libc sampleHeader) _ (Reachable.cookie _ "3" Reachable.initial)
     "4").2.2⟩

/-- C19: a fresh engine fed `3`, `4` and the line of eleven spaces followed by
`Goodbye.` returns `CLIP_MOTD_BEGIN` (3), `CLIP_MOTD_END` (4) and `FIBS_Goodbye` in that
order; after the third call every batch is released and the state is
`logout_state_cookies`, and `FIBSCookie` on `anything` then returns
`FIBS_PostGoodbye`. -/
theorem C19_session_end_to_end (hdr : Msg → Int) :
    "           Goodbye." = String.mk (List.replicate 11 ' ') ++ "Goodbye." ∧
    (FIBSCookie (libc hdr) Monster.initial "3").1 = (libc hdr).val CLIP_MOTD_BEGIN ∧
    (FIBSCookie (libc hdr) (feed (libc hdr) Monster.initial ["3"]) "4").1
      = (libc hdr).val CLIP_MOTD_END ∧
    FIBSCookie (libc hdr) (feed (libc hdr) Monster.initial ["3", "4"]) "           Goodbye."
      = (hdr FIBS_Goodbye, ⟨[], [], [], [], [], .logout_state_cookies⟩) ∧
    FIBSCookie (libc hdr) (feed (libc hdr) Monster.initial ["3", "4", "           Goodbye."])
        "anything"
      = (hdr FIBS_PostGoodbye, ⟨[], [], [], [], [], .logout_state_cookies⟩) := by
  refine ⟨by decide, ?_, ?_, ?_, ?_⟩
  · rw [FIBSCookie_initial_3]
    rfl
  · simp only [feed, List.foldl, FIBSCookie_initial_3, FIBSCookie_ready_4]
    rfl
  · simp only [feed, List.foldl, FIBSCookie_initial_3, FIBSCookie_ready_4,
      FIBSCookie_ready_goodbye]
  · rw [feed_session_goodbye]
    rfl

/-- C20 (the code at the failing input): a fresh engine fed `3`, `4` and the goodbye line
and then reset is in the login state with every batch released, a reachable value of the
variables; there every line, and so every line that begins with `login:`, gets
`FIBS_PreLogin`. On a fresh engine, and in the login state with the login batch built,
every line that begins with `login:` gets `FIBS_LoginPrompt`. -/
theorem C20_login_prompt_lost_after_reset (hdr : Msg → Int) :
    Reachable (libc hdr) (ResetFIBSCookieMonster (libc hdr)
      (feed (libc hdr) Monster.initial ["3", "4", "           Goodbye."])) ∧
    (ResetFIBSCookieMonster (libc hdr)
      (feed (libc hdr) Monster.initial ["3", "4", "           Goodbye."])).state
        = .login_state_cookies ∧
    (∀ rest : String,
      (FIBSCookie (libc hdr) (ResetFIBSCookieMonster (libc hdr)
        (feed (libc hdr) Monster.initial ["3", "4", "           Goodbye."]))
          ("login:" ++ rest)).1 = hdr FIBS_PreLogin) ∧
    (∀ rest : String,
      (FIBSCookie (libc hdr) Monster.initial ("login:" ++ rest)).1 = hdr FIBS_LoginPrompt) ∧
    (∀ (s : Monster) (rest : String), s.state = .login_state_cookies →
      s.LoginBatch = bakedBatch hdr LoginBatchDough →
      (FIBSCookie (libc hdr) s ("login:" ++ rest)).1 = hdr FIBS_LoginPrompt) := by
  have hready : ∀ (s : Monster) (rest : String),
      s.LoginBatch = bakedBatch hdr LoginBatchDough →
      (login_state_cookies (libc hdr) s ("login:" ++ rest)).1 = hdr FIBS_LoginPrompt := by
    intro s rest hb
    rw [login_state_cookies_fst, hb, loop_batch_search_baked, firstHit_login_prefix]
    rfl
  refine ⟨Reachable.reset _ (reachable_feed _ _ _ Reachable.initial), ?_, ?_, ?_, ?_⟩
  · rw [Reset_after_goodbye]
  · intro rest
    rw [Reset_after_goodbye]
    exact FIBSCookie_login_empty (libc hdr) _
  · intro rest
    rw [FIBSCookie_uninitialized hdr Monster.initial rfl]
    exact hready _ rest rfl
  · intro s rest hs hb
    have : FIBSCookie (libc hdr) s ("login:" ++ rest)
        = login_state_cookies (libc hdr) s ("login:" ++ rest) := by
      simp only [FIBSCookie, hs]
    rw [this]
    exact hready s rest hb

/-- C21 (the code at the failing input): a fresh engine fed `3`, `4` and the goodbye line
and then reset is in the login state with every batch released, a reachable value of the
variables; there the line `1 marv 1009 1 1`, like every other line, gets `FIBS_PreLogin`.
In the login state with the login batch built that line, like every line made of `1 `, a
non-empty name of characters of `[a-zA-Z_<>]`, a space, one or more decimal digits, a
space and any remainder, gets `CLIP_WELCOME` (= 1) and leaves the variables unchanged. -/
theorem C21_welcome_lost_after_reset (hdr : Msg → Int) :
    Reachable (libc hdr) (ResetFIBSCookieMonster (libc hdr)
      (feed (libc hdr) Monster.initial ["3", "4", "           Goodbye."])) ∧
    (ResetFIBSCookieMonster (libc hdr)
      (feed (libc hdr) Monster.initial ["3", "4", "           Goodbye."])).state
        = .login_state_cookies ∧
    (FIBSCookie (libc hdr) (ResetFIBSCookieMonster (libc hdr)
        (feed (libc hdr) Monster.initial ["3", "4", "           Goodbye."]))
          "1 marv 1009 1 1").1 = hdr FIBS_PreLogin ∧
    (∀ L : String,
      (FIBSCookie (libc hdr) (ResetFIBSCookieMonster (libc hdr)
        (feed (libc hdr) Monster.initial ["3", "4", "           Goodbye."])) L).1
          = hdr FIBS_PreLogin) ∧
    FIBSCookie (libc hdr) (Monster.ready hdr .login_state_cookies) "1 marv 1009 1 1"
      = (1, Monster.ready hdr .login_state_cookies) ∧
    (libc hdr).val CLIP_WELCOME = 1 ∧
    (∀ (s : Monster) (name digits rest : String), s.state = .login_state_cookies →
      s.LoginBatch = bakedBatch hdr LoginBatchDough →
      name ≠ "" → (∀ c ∈ name.data, isNameChar c = true) →
      digits ≠ "" → (∀ c ∈ digits.data, isDigitChar c = true) →
      FIBSCookie (libc hdr) s ("1 " ++ name ++ " " ++ digits ++ " " ++ rest) = (1, s)) := by
  refine ⟨Reachable.reset _ (reachable_feed _ _ _ Reachable.initial), ?_, ?_, ?_, ?_, rfl,
    fun s name digits rest hs hb hn hnc hd hdc =>
      (FIBSCookie_welcome_built hdr s hs hb name digits rest hn hnc hd hdc).2.1⟩
  · rw [Reset_after_goodbye]
  · rw [Reset_after_goodbye]
    exact FIBSCookie_login_empty (libc hdr) _
  · intro L
    rw [Reset_after_goodbye]
    exact FIBSCookie_login_empty (libc hdr) L
  · have hsearch : loop_batch_search (Monster.ready hdr .login_state_cookies).LoginBatch
        "1 marv 1009 1 1" ((libc hdr).val FIBS_PreLogin) = 1 := by
      show loop_batch_search (bakedBatch hdr LoginBatchDough) _ _ = _
      rw [loop_batch_search_baked, firstHit_login_welcome_marv]
      rfl
    have hv : (libc hdr).val CLIP_MOTD_BEGIN = 3 := rfl
    have hf : FIBSCookie (libc hdr) (Monster.ready hdr .login_state_cookies) "1 marv 1009 1 1"
        = login_state_cookies (libc hdr) (Monster.ready hdr .login_state_cookies)
            "1 marv 1009 1 1" := rfl
    rw [hf, login_state_cookies_eq, hv, hsearch, if_neg (by decide)]

/-- C22: in the run state with the stars batch built, every line that begins with
`** User` gets `FIBS_Username`, found by the search of the stars batch, and leaves the
variables unchanged (the state stays `run_state_cookies`); with distinct codes this is
neither `FIBS_Unknown` nor the code of any line of the alpha table. -/
theorem C22_username (hdr : Msg → Int) (hdist : DistinctCodes hdr) (s : Monster)
    (hs : s.state = .run_state_cookies)
    (hb : s.StarsBatch = bakedBatch hdr StarsBatchDough) (rest : String) :
    FIBSCookie (libc hdr) s ("** User" ++ rest) = (hdr FIBS_Username, s) ∧
    loop_batch_search s.StarsBatch ("** User" ++ rest) ((libc hdr).val FIBS_Unknown)
      = hdr FIBS_Username ∧
    (FIBSCookie (libc hdr) s ("** User" ++ rest)).2.state = .run_state_cookies ∧
    hdr FIBS_Username ≠ (libc hdr).val FIBS_Unknown ∧
    ∀ d ∈ AlphaBatchDough, hdr FIBS_Username ≠ (libc hdr).val d.1 := by
  have hdat : ("** User" ++ rest).data = '*' :: ("* User".data ++ rest.data) := by
    rw [String.data_append]
    rfl
  have hne : ∀ m : Msg, m ≠ FIBS_Username → hdr FIBS_Username ≠ (libc hdr).val m := by
    intro m hm h
    exact hm (@hdist FIBS_Username m h).symm
  have hsearch : loop_batch_search s.StarsBatch ("** User" ++ rest)
      ((libc hdr).val FIBS_Unknown) = hdr FIBS_Username := by
    rw [hb, loop_batch_search_baked, firstHit_stars_user]
    rfl
  have hfst : (run_state_cookies (libc hdr) s ("** User" ++ rest)).1 = hdr FIBS_Username := by
    rw [run_state_cookies_stars_fst hdr s _ _ hdat hb, firstHit_stars_user]
    rfl
  have hsnd : (run_state_cookies (libc hdr) s ("** User" ++ rest)).2 = s := by
    apply run_state_cookies_snd_of_ne
    · rw [hfst]
      exact hne FIBS_Goodbye (by decide)
    · rw [hfst]
      exact hne FIBS_Timeout (by decide)
  have hf : FIBSCookie (libc hdr) s ("** User" ++ rest) = (hdr FIBS_Username, s) := by
    simp only [FIBSCookie, hs]
    exact Prod.ext hfst hsnd
  rw [hf]
  refine ⟨rfl, hsearch, hs, hne FIBS_Unknown (by decide), ?_⟩
  intro d hd
  have := List.all_eq_true.mp alpha_no_username d hd
  exact hne d.1 (by simpa using this)

/-- Witness for C22: the line `** User fergy is barred.` on the built engine in the run
state, sample numbering. -/
theorem C22_username_witness :
    DistinctCodes sampleHeader ∧
    "** User" ++ " fergy is barred." = "** User fergy is barred." ∧
    FIBSCookie (libc sampleHeader) (Monster.ready sampleHeader .run_state_cookies)
        ("** User" ++ " fergy is barred.")
      = (sampleHeader FIBS_Username, Monster.ready sampleHeader .run_state_cookies) :=
  ⟨sampleHeader_distinct, by decide,
   (C22_username sampleHeader sampleHeader_distinct
     (Monster.ready sampleHeader .run_state_cookies) rfl rfl " fergy is barred.").1⟩

/-- C23 (the code at the failing input): the stars table declares `FIBS_NoUser` once,
after the `FIBS_NoOne` line whose pattern is the same without the final space, and no
other table declares it. No message reaches that line, and for every line the cookie
`FIBSCookie` returns in the run state is the code of an identifier other than
`FIBS_NoUser`; the line `** There is no one called fergy` gets `FIBS_NoOne`. -/
theorem C23_no_user_entry_unreachable (hdr : Msg → Int) (L : String) :
    (FIBS_NoUser, "^\\*\\* There is no one called ") ∈ StarsBatchDough ∧
    firstHit StarsBatchDough L ≠ some FIBS_NoUser ∧
    (∃ m : Msg, m ≠ FIBS_NoUser ∧
      (FIBSCookie (libc hdr) (Monster.ready hdr .run_state_cookies) L).1
        = (libc hdr).val m) ∧
    (FIBSCookie (libc hdr) (Monster.ready hdr .run_state_cookies)
      "** There is no one called fergy").1 = hdr FIBS_NoOne := by
  have hf : ∀ M : String,
      FIBSCookie (libc hdr) (Monster.ready hdr .run_state_cookies) M
        = run_state_cookies (libc hdr) (Monster.ready hdr .run_state_cookies) M :=
    fun _ => rfl
  refine ⟨by decide, firstHit_stars_ne_no_user L, ?_, ?_⟩
  · rw [hf]
    have other : ∀ tbl : List (Msg × String),
        (∀ d ∈ tbl, d ∈ AlphaBatchDough ++ NumericBatchDough) →
        ∃ m : Msg, m ≠ FIBS_NoUser ∧
          (match firstHit tbl L with
           | some m => (libc hdr).val m
           | none => (libc hdr).val FIBS_Unknown) = (libc hdr).val m := by
      intro tbl hsub
      cases hh : firstHit tbl L with
      | none => exact ⟨FIBS_Unknown, by decide, rfl⟩
      | some m =>
        obtain ⟨re, hmem⟩ := firstHit_mem tbl L m hh
        have := List.all_eq_true.mp alpha_numeric_no_user (m, re) (hsub _ hmem)
        exact ⟨m, by simpa using this, rfl⟩
    cases hL : L.data with
    | nil =>
      rw [run_state_cookies_empty _ _ _ hL]
      exact ⟨FIBS_Empty, by decide, rfl⟩
    | cons ch cs =>
      by_cases hd : ch.isDigit = true
      · rw [run_state_cookies_numeric_fst hdr _ L ch cs hL hd rfl]
        exact other NumericBatchDough (fun d hd => List.mem_append_right _ hd)
      · by_cases hstar : ch = '*'
        · subst hstar
          rw [run_state_cookies_stars_fst hdr _ L cs hL rfl]
          cases hh : firstHit StarsBatchDough L with
          | none => exact ⟨FIBS_Unknown, by decide, rfl⟩
          | some m =>
            refine ⟨m, ?_, rfl⟩
            intro hm
            subst hm
            exact firstHit_stars_ne_no_user L hh
        · rw [run_state_cookies_alpha_fst hdr _ L ch cs hL (by simpa using hd) hstar rfl]
          exact other AlphaBatchDough (fun d hd => List.mem_append_left _ hd)
  · rw [hf, run_state_cookies_stars_fst hdr _ "** There is no one called fergy"
      "* There is no one called fergy".data rfl rfl, firstHit_stars_no_one_fergy]
    rfl

/-- C24 (the code at the failing input): in the run state every line that begins with
`board:` gets `FIBS_Board` or `FIBS_BAD_Board`; the line `board:a:b:` followed by one
backslash, whose last field is not a run of digits, colons and hyphens, gets
`FIBS_Board`, like the well-formed line `board:a:b:1:-2`, while `board:a:b:x` gets
`FIBS_BAD_Board`. -/
theorem C24_board_accepts_backslash (hdr : Msg → Int) :
    (∀ rest : String,
      (FIBSCookie (libc hdr) (Monster.ready hdr .run_state_cookies) ("board:" ++ rest)).1
        = hdr FIBS_Board ∨
      (FIBSCookie (libc hdr) (Monster.ready hdr .run_state_cookies) ("board:" ++ rest)).1
        = hdr FIBS_BAD_Board) ∧
    "board:a:b:\\".data = "board:a:b:".data ++ ['\\'] ∧
    (FIBSCookie (libc hdr) (Monster.ready hdr .run_state_cookies) "board:a:b:\\").1
      = hdr FIBS_Board ∧
    (FIBSCookie (libc hdr) (Monster.ready hdr .run_state_cookies) "board:a:b:1:-2").1
      = hdr FIBS_Board ∧
    (FIBSCookie (libc hdr) (Monster.ready hdr .run_state_cookies) "board:a:b:x").1
      = hdr FIBS_BAD_Board := by
  have hf : ∀ M : String,
      FIBSCookie (libc hdr) (Monster.ready hdr .run_state_cookies) M
        = run_state_cookies (libc hdr) (Monster.ready hdr .run_state_cookies) M :=
    fun _ => rfl
  obtain ⟨h1, h2, h3⟩ := firstHit_alpha_board_samples
  refine ⟨?_, by decide, ?_, ?_, ?_⟩
  · intro rest
    have hdat : ("board:" ++ rest).data = 'b' :: ("oard:".data ++ rest.data) := by
      rw [String.data_append]
      rfl
    rw [hf, run_state_cookies_alpha_fst hdr _ _ 'b' _ hdat (by decide) (by decide) rfl]
    rcases firstHit_alpha_board rest with h | h
    · left; rw [h]; rfl
    · right; rw [h]; rfl
  · rw [hf, run_state_cookies_alpha_fst hdr _ "board:a:b:\\" 'b' "oard:a:b:\\".data rfl
      (by decide) (by decide) rfl, h1]
    rfl
  · rw [hf, run_state_cookies_alpha_fst hdr _ "board:a:b:1:-2" 'b' "oard:a:b:1:-2".data rfl
      (by decide) (by decide) rfl, h2]
    rfl
  · rw [hf, run_state_cookies_alpha_fst hdr _ "board:a:b:x" 'b' "oard:a:b:x".data rfl
      (by decide) (by decide) rfl, h3]
    rfl

/-- C25 (the code at the failing input): the pattern `^Time (UTC)  average min max` is
compiled as an extended regular expression, where the parentheses group; it does not
match the line `Time (UTC)  average min max`, which no other line of the alpha table
matches either, so in the run state that line gets `FIBS_Unknown`; the line without
the parentheses, `Time UTC  average min max`, gets `FIBS_Average`. -/
theorem C25_time_utc_header_is_unknown (hdr : Msg → Int) :
    (FIBS_Average, "^Time (UTC)  average min max") ∈ AlphaBatchDough ∧
    (regcompERE "^Time (UTC)  average min max").map
        (fun r => regexec r "Time (UTC)  average min max") = some false ∧
    (FIBSCookie (libc hdr) (Monster.ready hdr .run_state_cookies)
        "Time (UTC)  average min max").1 = hdr FIBS_Unknown ∧
    (FIBSCookie (libc hdr) (Monster.ready hdr .run_state_cookies)
        "Time UTC  average min max").1 = hdr FIBS_Average := by
  have hf : ∀ M : String,
      FIBSCookie (libc hdr) (Monster.ready hdr .run_state_cookies) M
        = run_state_cookies (libc hdr) (Monster.ready hdr .run_state_cookies) M :=
    fun _ => rfl
  obtain ⟨h1, h2⟩ := firstHit_alpha_time_utc
  refine ⟨by decide!, by decide, ?_, ?_⟩
  · rw [hf, run_state_cookies_alpha_fst hdr _ "Time (UTC)  average min max" 'T'
      "ime (UTC)  average min max".data rfl (by decide) (by decide) rfl, h1]
    rfl
  · rw [hf, run_state_cookies_alpha_fst hdr _ "Time UTC  average min max" 'T'
      "ime UTC  average min max".data rfl (by decide) (by decide) rfl, h2]
    rfl

/-- C26: in the run state with the numeric and stars batches built and distinct codes, a
line whose first character is a decimal digit or `*` never gets `FIBS_Goodbye` or
`FIBS_Timeout`, and `FIBSCookie` leaves the variables unchanged: the state stays
`run_state_cookies` and no batch is released. -/
theorem C26_digit_star_never_ends (hdr : Msg → Int) (hdist : DistinctCodes hdr)
    (s : Monster) (hs : s.state = .run_state_cookies)
    (hn : s.NumericBatch = bakedBatch hdr NumericBatchDough)
    (ht : s.StarsBatch = bakedBatch hdr StarsBatchDough)
    (L : String) (ch : Char) (cs : List Char) (hL : L.data = ch :: cs)
    (hch : ch.isDigit = true ∨ ch = '*') :
    (FIBSCookie (libc hdr) s L).1 ≠ (libc hdr).val FIBS_Goodbye ∧
    (FIBSCookie (libc hdr) s L).1 ≠ (libc hdr).val FIBS_Timeout ∧
    (FIBSCookie (libc hdr) s L).2 = s ∧
    (FIBSCookie (libc hdr) s L).2.state = .run_state_cookies := by
  have hf : FIBSCookie (libc hdr) s L = run_state_cookies (libc hdr) s L := by
    simp only [FIBSCookie, hs]
  have key : ∀ tbl : List (Msg × String),
      (∀ d ∈ tbl, d ∈ NumericBatchDough ++ StarsBatchDough) →
      (run_state_cookies (libc hdr) s L).1
        = (match firstHit tbl L with
           | some m => (libc hdr).val m
           | none => (libc hdr).val FIBS_Unknown) →
      (run_state_cookies (libc hdr) s L).1 ≠ (libc hdr).val FIBS_Goodbye ∧
      (run_state_cookies (libc hdr) s L).1 ≠ (libc hdr).val FIBS_Timeout := by
    intro tbl hsub heq
    rw [heq]
    cases hh : firstHit tbl L with
    | none =>
      exact ⟨fun h => absurd (@hdist FIBS_Unknown FIBS_Goodbye h) (by decide),
        fun h => absurd (@hdist FIBS_Unknown FIBS_Timeout h) (by decide)⟩
    | some m =>
      obtain ⟨re, hmem⟩ := firstHit_mem tbl L m hh
      have := List.all_eq_true.mp numeric_stars_no_goodbye (m, re) (hsub _ hmem)
      simp only [Bool.and_eq_true, bne_iff_ne, ne_eq] at this
      exact ⟨fun h => this.1 (@hdist m FIBS_Goodbye h), fun h => this.2 (@hdist m FIBS_Timeout h)⟩
  have hne : (run_state_cookies (libc hdr) s L).1 ≠ (libc hdr).val FIBS_Goodbye ∧
      (run_state_cookies (libc hdr) s L).1 ≠ (libc hdr).val FIBS_Timeout := by
    rcases hch with hd | hstar
    · exact key NumericBatchDough (fun d hd => List.mem_append_left _ hd)
        (run_state_cookies_numeric_fst hdr s L ch cs hL hd hn)
    · subst hstar
      exact key StarsBatchDough (fun d hd => List.mem_append_right _ hd)
        (run_state_cookies_stars_fst hdr s L cs hL ht)
  have hsnd := run_state_cookies_snd_of_ne (libc hdr) s L hne.1 hne.2
  rw [hf]
  exact ⟨hne.1, hne.2, hsnd, by rw [hsnd]; exact hs⟩

/-- Witness for C26: the shout line `13 marv hello` on the built engine in the run
state, sample numbering. -/
theorem C26_digit_star_never_ends_witness :
    DistinctCodes sampleHeader ∧
    "13 marv hello".data = '1' :: "3 marv hello".data ∧
    (('1' : Char).isDigit = true ∨ ('1' : Char) = '*') ∧
    FIBSCookie (libc sampleHeader) (Monster.ready sampleHeader .run_state_cookies)
        "13 marv hello" ≠ ((libc sampleHeader).val FIBS_Goodbye,
          ⟨[], [], [], [], [], .logout_state_cookies⟩) ∧
    (FIBSCookie (libc sampleHeader) (Monster.ready sampleHeader .run_state_cookies)
        "13 marv hello").2 = Monster.ready sampleHeader .run_state_cookies :=
  ⟨sampleHeader_distinct, rfl, Or.inl (by decide),
   fun h => (C26_digit_star_never_ends sampleHeader sampleHeader_distinct
     (Monster.ready sampleHeader .run_state_cookies) rfl rfl rfl "13 marv hello" '1'
     "3 marv hello".data rfl (Or.inl (by decide))).1 (by rw [h]),
   (C26_digit_star_never_ends sampleHeader sampleHeader_distinct
     (Monster.ready sampleHeader .run_state_cookies) rfl rfl rfl "13 marv hello" '1'
     "3 marv hello".data rfl (Or.inl (by decide))).2.2.1⟩

/-- C27 (the code at the failing input): the shout record `13 bytes hello`, whose sender
name `bytes` is a name of characters of `[a-zA-Z_<>]`, is captured by the earlier line
`^[0-9]+ bytes` of the numeric table and gets `FIBS_Stat`; the record `13 marv hello`
gets `CLIP_SHOUTS` (= 13). -/
theorem C27_shout_captured_by_stat (hdr : Msg → Int) :
    "13 bytes hello" = "13 " ++ "bytes" ++ " " ++ "hello" ∧
    (∀ c ∈ "bytes".data, isNameChar c = true) ∧
    (FIBSCookie (libc hdr) (Monster.ready hdr .run_state_cookies) "13 bytes hello").1
      = hdr FIBS_Stat ∧
    (FIBSCookie (libc hdr) (Monster.ready hdr .run_state_cookies) "13 marv hello").1
      = (libc hdr).val CLIP_SHOUTS ∧
    (libc hdr).val CLIP_SHOUTS = 13 := by
  have hf : ∀ M : String,
      FIBSCookie (libc hdr) (Monster.ready hdr .run_state_cookies) M
        = run_state_cookies (libc hdr) (Monster.ready hdr .run_state_cookies) M :=
    fun _ => rfl
  obtain ⟨h1, h2⟩ := firstHit_numeric_shouts
  refine ⟨by decide, by decide, ?_, ?_, rfl⟩
  · rw [hf, run_state_cookies_numeric_fst hdr _ "13 bytes hello" '1' "3 bytes hello".data rfl
      (by decide) rfl, h1]
    rfl
  · rw [hf, run_state_cookies_numeric_fst hdr _ "13 marv hello" '1' "3 marv hello".data rfl
      (by decide) rfl, h2]

end FIBS
